import Mathlib

/-!
Verification of kernelstub's Installer (src/kernelstub/installer.py) and the
relevant slice of Kernelstub.main (src/kernelstub/application.py) against the
natural-language specification.

The embedding models the filesystem as a map from path strings to file
contents (lists of characters) plus a set of existing directories, and every
operation additionally records a trace of observable side effects (file
writes, directory creations, external tool invocations, firmware
boot-variable operations).  Python's `exit(n)` and uncaught exceptions are
modelled by returning the state reached so far together with an `Except`
outcome.  `os.path.join` is modelled faithfully for the cases exercised here
(absolute second component wins, otherwise a single slash is inserted).
-/

namespace Kernelstub

/-- Last character of a character list (used to model path suffix facts). -/
def lastC (l : List Char) : Option Char := l.reverse.head?

/-- Model of Python's os.path.join for two components: an absolute second
component replaces the first; otherwise a slash is inserted unless the first
component is empty or already ends in a slash. -/
def pathJoin (a b : String) : String :=
  if b.data.head? = some '/' then b
  else if a.data = [] then b
  else if lastC a.data = some '/' then a ++ b
  else a ++ "/" ++ b

/-- Model of os.path.basename: the part of the path after the last slash. -/
def basename (p : String) : String :=
  ⟨(p.data.reverse.takeWhile (fun c => c ≠ '/')).reverse⟩

/-- Observable side effects of a run. `fileWrite` covers file creation and
truncating rewrites (open(..., 'w'/'wb') and shutil.copy destinations),
`toolRun` is a subprocess.check_call invocation, and the nvram events are the
operations issued against the firmware boot-variable store. `configSave`
marks the configuration save that ends a successful run of Kernelstub.main. -/
inductive Event where
  | mkdir (path : String)
  | fileWrite (path : String)
  | toolRun (cmd : List String)
  | nvramRefresh
  | nvramDelete (pos : Int) (simulate : Bool)
  | nvramAdd (simulate : Bool)
  | configSave
  deriving DecidableEq, Repr

/-- The filesystem: existing directories and files with their contents.
Reading returns the most recent write (writes are consed onto `files`). -/
structure FS where
  dirs : List String
  files : List (String × List Char)
  deriving DecidableEq, Repr

def FS.read (fs : FS) (p : String) : Option (List Char) :=
  (fs.files.find? (fun e => e.1 == p)).map (fun e => e.2)

def FS.write (fs : FS) (p : String) (c : List Char) : FS :=
  { fs with files := (p, c) :: fs.files }

def FS.dirExists (fs : FS) (p : String) : Bool := fs.dirs.contains p

/-- Model of os.path.exists: true for a file or a directory at the path. -/
def FS.pathExists (fs : FS) (p : String) : Bool :=
  (fs.read p).isSome || fs.dirExists p

/-- A run state: the filesystem plus the trace of observable effects. -/
abbrev St := FS × List Event

/-- Write a file and record the corresponding effect. -/
def stWrite (st : St) (p : String) (c : List Char) : St :=
  (st.1.write p c, st.2 ++ [Event.fileWrite p])

/-- The OS collaborator (kernelstub.opsys.OS): names and source paths of the
current and previous kernel/initrd generations. -/
structure Opsys where
  name : String
  name_pretty : String
  kernel_name : String
  initrd_name : String
  kernel_path : String
  initrd_path : String
  old_kernel_path : String
  old_initrd_path : String
  deriving DecidableEq, Repr

/-- The Drive collaborator (kernelstub.drive.Drive): ESP mount path and root
filesystem UUID. -/
structure Drive where
  esp_path : String
  root_uuid : String
  deriving DecidableEq, Repr

/-- Instance attributes of installer.Installer after __init__ has assigned
them (installer.py lines 44-54). `old_kernel` is the class attribute
initialised to True (line 38). -/
structure Installer where
  opsys : Opsys
  drive : Drive
  work_dir : String
  loader_dir : String
  entry_dir : String
  os_dir_name : String
  os_folder : String
  kernel_dest : String
  initrd_dest : String
  old_kernel : Bool
  deriving DecidableEq, Repr

/-- The pure field computation of Installer.__init__ (installer.py 44-54):
work_dir = esp/EFI, loader_dir = esp/loader, entry_dir = loader/entries,
os_dir_name = "name-uuid", os_folder = work_dir/os_dir_name, and the initial
kernel/initrd destinations. -/
def Installer.mk0 (o : Opsys) (d : Drive) : Installer :=
  let work_dir := pathJoin d.esp_path "EFI"
  let loader_dir := pathJoin d.esp_path "loader"
  let entry_dir := pathJoin loader_dir "entries"
  let os_dir_name := o.name ++ "-" ++ d.root_uuid
  let os_folder := pathJoin work_dir os_dir_name
  { opsys := o, drive := d, work_dir := work_dir, loader_dir := loader_dir,
    entry_dir := entry_dir, os_dir_name := os_dir_name, os_folder := os_folder,
    kernel_dest := pathJoin os_folder o.kernel_name,
    initrd_dest := pathJoin os_folder o.initrd_name,
    old_kernel := true }

/-- Installer.__init__ (installer.py 40-59): computes the fields and then
unconditionally creates the loader directory and the entries directory when
os.path.exists reports them absent. The constructor takes no simulate/dry-run
parameter, mirroring the source. -/
def Installer.init (o : Opsys) (d : Drive) (st : St) : Installer × St :=
  let i := Installer.mk0 o d
  let st1 := if st.1.pathExists i.loader_dir then st
             else ({ st.1 with dirs := i.loader_dir :: st.1.dirs },
                   st.2 ++ [Event.mkdir i.loader_dir])
  let st2 := if st1.1.pathExists i.entry_dir then st1
             else ({ st1.1 with dirs := i.entry_dir :: st1.1.dirs },
                   st1.2 ++ [Event.mkdir i.entry_dir])
  (i, st2)

/-- Installer.copy_files (installer.py 341-353): under simulate only logs;
otherwise shutil.copy of src onto dest (into the directory when dest is an
existing directory), raising FileOpsError when the source cannot be read. -/
def copy_files (st : St) (src dest : String) (simulate : Bool) :
    Except Unit St :=
  if simulate then .ok st
  else
    match st.1.read src with
    | some c =>
        let target := if st.1.dirExists dest then pathJoin dest (basename src)
                      else dest
        .ok (stWrite st target c)
    | none => .error ()

/-- Installer.gunzip_files (installer.py 324-338): under simulate only logs;
otherwise gzip-decompresses src into dest, raising FileOpsError when the
source is missing, is not valid gzip data (`gz` returns none), or the
destination cannot be opened for writing because it is a directory.  The
decompression function itself is the abstract parameter `gz`. -/
def gunzip_files (gz : List Char → Option (List Char)) (st : St)
    (src dest : String) (simulate : Bool) : Except Unit St :=
  if simulate then .ok st
  else
    match st.1.read src with
    | some c =>
        match gz c with
        | some u => if st.1.dirExists dest then .error ()
                    else .ok (stWrite st dest u)
        | none => .error ()
    | none => .error ()

/-- Installer.ensure_dir (installer.py 314-322): os.makedirs(exist_ok=True)
when not simulating; exceptions are swallowed. -/
def ensure_dir (st : St) (dir : String) (simulate : Bool) : St :=
  if simulate then st
  else if st.1.dirExists dir then st
  else ({ st.1 with dirs := dir :: st.1.dirs }, st.2 ++ [Event.mkdir dir])

/-- Installer.make_loader_entry (installer.py 305-312): opens filename.conf in
truncating write mode and writes the four lines in order. There is no
simulate parameter in the source. -/
def make_loader_entry (st : St) (title linux initrd options filename : String) :
    St :=
  stWrite st (filename ++ ".conf")
    ("title ".data ++ title.data ++ ['\n'] ++
     "linux ".data ++ linux.data ++ ['\n'] ++
     "initrd ".data ++ initrd.data ++ ['\n'] ++
     "options ".data ++ options.data ++ ['\n'])

/-- Installer.setup_kernel (installer.py 189-274). A FileOpsError from the
kernel placement exits with status 170, one from the initrd copy exits with
status 171; the state reached at that point is returned together with the
outcome. -/
def setup_kernel (gz : List Char → Option (List Char)) (arch : String)
    (i : Installer) (st : St) (kernel_opts : String)
    (setup_loader overwrite simulate : Bool) : St × Except Nat Unit :=
  let kernel_dest := pathJoin i.os_folder (i.opsys.kernel_name ++ ".efi")
  let st := ensure_dir st i.os_folder simulate
  match (if arch = "arm64" || arch = "aarch64"
         then gunzip_files gz st i.opsys.kernel_path kernel_dest simulate
         else copy_files st i.opsys.kernel_path kernel_dest simulate) with
  | .error _ => (st, .error 170)
  | .ok st1 =>
    let initrd_dest := pathJoin i.os_folder i.opsys.initrd_name
    match copy_files st1 i.opsys.initrd_path initrd_dest simulate with
    | .error _ => (st1, .error 171)
    | .ok st2 =>
      if setup_loader then
        let linux_line := "/EFI/" ++ i.opsys.name ++ "-" ++ i.drive.root_uuid
          ++ "/" ++ i.opsys.kernel_name ++ ".efi"
        let initrd_line := "/EFI/" ++ i.opsys.name ++ "-" ++ i.drive.root_uuid
          ++ "/" ++ i.opsys.initrd_name
        if simulate then (st2, .ok ())
        else
          let overwrite :=
            if !overwrite && !(st2.1.pathExists (i.loader_dir ++ "/loader.conf"))
            then true else overwrite
          let st3 := if overwrite then
              stWrite (ensure_dir st2 i.loader_dir false)
                (i.loader_dir ++ "/loader.conf")
                ("default ".data ++ i.opsys.name.data ++ "-current\n".data)
            else st2
          let st4 := ensure_dir st3 i.entry_dir false
          (make_loader_entry st4 i.opsys.name_pretty linux_line initrd_line
             kernel_opts (pathJoin i.entry_dir (i.opsys.name ++ "-current")),
           .ok ())
      else (st2, .ok ())

/-- The objcopy command line built in setup_unified_kernel (installer.py
83-90), with the four sections at their fixed virtual offsets. -/
def objcopyCmd (cmdline_path kernel_path initrd_path out : String) :
    List String :=
  ["objcopy",
   "--add-section", ".osrel=/usr/lib/os-release",
   "--change-section-vma", ".osrel=0x20000",
   "--add-section", ".cmdline=" ++ cmdline_path,
   "--change-section-vma", ".cmdline=0x30000",
   "--add-section", ".linux=" ++ kernel_path,
   "--change-section-vma", ".linux=0x2000000",
   "--add-section", ".initrd=" ++ initrd_path,
   "--change-section-vma", ".initrd=0x3000000",
   "/usr/lib/systemd/boot/efi/linuxx64.efi.stub", out]

/-- The sbsign command line built in setup_unified_kernel (installer.py
101-107). -/
def sbsignCmd (crt key out input : String) : List String :=
  ["sbsign", "--cert", crt, "--key", key, "--output", out, input]

/-- Modelled external tool invocation: subprocess.check_call records the
command; for the merge and sign tools used here a successful run produces the
tool's output file, whose contents are an abstract parameter. A failing tool
raises CalledProcessError, which is not caught in the source. -/
def check_call (ok : Bool) (cmd : List String) (out : String)
    (content : List Char) (st : St) : Except Unit St :=
  if ok then
    .ok (st.1.write out content, st.2 ++ [Event.toolRun cmd, Event.fileWrite out])
  else .error ()

/-- Installer.setup_unified_kernel (installer.py 61-137). `objcopyOut` and
`sbsignOut` are the abstract output bytes of the external merge and sign
tools; `objcopyOk`/`sbsignOk` say whether those tools succeed. -/
def setup_unified_kernel (objcopyOut sbsignOut : List Char)
    (objcopyOk sbsignOk : Bool) (i : Installer) (st : St)
    (kernel_opts : String) (old overwrite simulate : Bool) :
    St × Except Unit Unit :=
  let suffix := if old then "previous" else "current"
  let kernel_path := if old then i.opsys.old_kernel_path else i.opsys.kernel_path
  let initrd_path := if old then i.opsys.old_initrd_path else i.opsys.initrd_path
  let tmp_dir := pathJoin "/tmp/kernelstub" suffix
  let st := ensure_dir st tmp_dir simulate
  let cmdline_path := pathJoin tmp_dir "cmdline"
  let st := if simulate then st else stWrite st cmdline_path kernel_opts.data
  let kernel_unsigned_efi_path := pathJoin tmp_dir "linux-unsigned.efi"
  let objcopy := objcopyCmd cmdline_path kernel_path initrd_path
    kernel_unsigned_efi_path
  match (if simulate then .ok st
         else check_call objcopyOk objcopy kernel_unsigned_efi_path objcopyOut st :
         Except Unit St) with
  | .error e => (st, .error e)
  | .ok st1 =>
    let sign_crt := "/etc/kernelstub/mok.crt"
    let sign_key := "/etc/kernelstub/mok.key"
    match (if st1.1.pathExists sign_crt && st1.1.pathExists sign_key then
             let kernel_signed_efi_path := pathJoin tmp_dir "signed.efi"
             let sbsign := sbsignCmd sign_crt sign_key kernel_signed_efi_path
               kernel_unsigned_efi_path
             match (if simulate then .ok st1
                    else check_call sbsignOk sbsign kernel_signed_efi_path
                      sbsignOut st1 : Except Unit St) with
             | .error e => .error e
             | .ok st2 => .ok (kernel_signed_efi_path, st2)
           else .ok (kernel_unsigned_efi_path, st1) :
           Except Unit (String × St)) with
    | .error e => (st1, .error e)
    | .ok (kernel_efi_path, st2) =>
      let kernel_efi_dest_dir := pathJoin i.work_dir "Linux"
      let st3 := ensure_dir st2 kernel_efi_dest_dir simulate
      let kernel_efi_name := i.opsys.name ++ "-" ++ suffix ++ "-"
        ++ i.drive.root_uuid ++ ".efi"
      let kernel_efi_dest := pathJoin kernel_efi_dest_dir kernel_efi_name
      match copy_files st3 kernel_efi_path kernel_efi_dest simulate with
      | .error e => (st3, .error e)
      | .ok st4 =>
        let overwrite :=
          if !overwrite && !simulate then
            (if !(st4.1.pathExists (i.loader_dir ++ "/loader.conf")) then true
             else overwrite)
          else overwrite
        if overwrite && !old && !simulate then
          let st5 := ensure_dir st4 i.loader_dir false
          (stWrite st5 (i.loader_dir ++ "/loader.conf")
             ("default ".data ++ kernel_efi_name.data ++ ['\n']), .ok ())
        else (st4, .ok ())

/-- Installer.backup_old (installer.py 139-187). `resolve` models
Path(...).resolve(). Each previous-generation copy is attempted under a bare
except that only clears the old_kernel flag; the previous loader entry is
written (with no simulate gate, and ensure_dir called with the default
simulate=False) exactly when setup_loader and the flag survived. -/
def backup_old (resolve : String → String) (i : Installer) (st : St)
    (kernel_opts : String) (setup_loader simulate : Bool) :
    Except Unit (Installer × St) :=
  if resolve i.opsys.old_kernel_path = resolve i.opsys.kernel_path then
    .ok (i, st)
  else
    let old_kernel_dest := pathJoin i.os_folder
      (i.opsys.kernel_name ++ "-previous.efi")
    let r1 := match copy_files st i.opsys.old_kernel_path old_kernel_dest
      simulate with
    | .ok st' => (i, st')
    | .error _ => ({ i with old_kernel := false }, st)
    let i := r1.1
    let st := r1.2
    let old_initrd_dest := pathJoin i.os_folder
      (i.opsys.initrd_name ++ "-previous")
    let r2 := match copy_files st i.opsys.old_initrd_path old_initrd_dest
      simulate with
    | .ok st' => (i, st')
    | .error _ => ({ i with old_kernel := false }, st)
    let i := r2.1
    let st := r2.2
    if setup_loader && i.old_kernel then
      let st := ensure_dir st i.entry_dir false
      let linux_line := "/EFI/" ++ i.opsys.name ++ "-" ++ i.drive.root_uuid
        ++ "/" ++ i.opsys.kernel_name ++ "-previous.efi"
      let initrd_line := "/EFI/" ++ i.opsys.name ++ "-" ++ i.drive.root_uuid
        ++ "/" ++ i.opsys.initrd_name ++ "-previous"
      .ok (i, make_loader_entry st i.opsys.name_pretty linux_line initrd_line
        kernel_opts (pathJoin i.entry_dir (i.opsys.name ++ "-oldkern")))
    else .ok (i, st)

/-- Installer.copy_cmdline (installer.py 297-302): copies /proc/cmdline into
the generation folder; a copy failure raises FileOpsError to the caller. -/
def copy_cmdline (i : Installer) (st : St) (simulate : Bool) :
    Except Unit St :=
  copy_files st "/proc/cmdline" i.os_folder simulate

/-- Modelled from the spec: the firmware boot-variable store collaborator
(kernelstub.nvram.NVRAM is not among the sources; spec section 6 documents
its interface: refresh, current entry index or absent sentinel,
order-list position, raw entry listing, deleteEntry, addEntry). `pending` is
the sequence of snapshots successive refreshes will observe. -/
structure NVRAM where
  os_entry_index : Int
  order_num : Int
  nvram : List String
  pending : List (Int × Int × List String)
  deriving DecidableEq, Repr

/-- Modelled from the spec: NVRAM.update refreshes the cached firmware state
from the store (next pending snapshot, unchanged when none is queued). -/
def NVRAM.update (n : NVRAM) : NVRAM :=
  match n.pending with
  | [] => n
  | (i, o, l) :: rest =>
      { os_entry_index := i, order_num := o, nvram := l, pending := rest }

/-- Installer.setup_stub (installer.py 280-295): copy_cmdline (whose
FileOpsError propagates), refresh, delete the stale entry exactly when the
refreshed index is >= 0, add the new entry, refresh again. -/
def setup_stub (i : Installer) (n : NVRAM) (st : St) (kernel_opts : String)
    (simulate : Bool) : (NVRAM × St) × Except Unit Unit :=
  match copy_cmdline i st simulate with
  | .error e => ((n, st), .error e)
  | .ok st1 =>
    let n := n.update
    let st2 : St := (st1.1, st1.2 ++ [Event.nvramRefresh])
    let st3 : St := if n.os_entry_index ≥ 0 then
        (st2.1, st2.2 ++ [Event.nvramDelete n.order_num simulate])
      else st2
    let st4 : St := (st3.1, st3.2 ++ [Event.nvramAdd simulate])
    let n := n.update
    ((n, (st4.1, st4.2 ++ [Event.nvramRefresh])), .ok ())

/-- The tail of Kernelstub.main (application.py 220-239): backup_old wrapped
in a catch-all try/except, setup_stub unless manage_mode, then the bare
copy_cmdline call (line 234, not wrapped), then config.save_config()
(modelled as the configSave event marking run completion). -/
def main_tail (resolve : String → String) (i : Installer) (n : NVRAM)
    (st : St) (kopts : String) (setup_loader manage_mode no_run : Bool) :
    (NVRAM × St) × Except Unit Unit :=
  let r0 := match backup_old resolve i st kopts setup_loader no_run with
  | .ok (i', st') => (i', st')
  | .error _ => (i, st)
  let i := r0.1
  let st := r0.2
  match (if !manage_mode then setup_stub i n st kopts no_run
         else ((n, st), .ok ())) with
  | ((n1, st1), .error e) => ((n1, st1), .error e)
  | ((n1, st1), .ok _) =>
    match copy_cmdline i st1 no_run with
    | .error e => ((n1, st1), .error e)
    | .ok st2 => ((n1, (st2.1, st2.2 ++ [Event.configSave])), .ok ())

/-- The firmware boot-variable store portion of an effect trace. -/
def isNvEvent : Event → Bool
  | .nvramRefresh => true
  | .nvramDelete _ _ => true
  | .nvramAdd _ => true
  | _ => false

/-- Restrict a trace to the firmware boot-variable store operations. -/
def nvTrace (l : List Event) : List Event := l.filter isNvEvent

/-- The four loader-entry lines (keyword followed by the given value) that
make_loader_entry writes, in their fixed order. -/
def fourLines (title linux initrd options : String) : List (List Char) :=
  ["title ".data ++ title.data, "linux ".data ++ linux.data,
   "initrd ".data ++ initrd.data, "options ".data ++ options.data]

/-- Join lines, terminating each with a newline. -/
def nlJoin (ls : List (List Char)) : List Char :=
  (ls.map (fun l => l ++ ['\n'])).flatten

/-- `c` consists of exactly the newline-terminated lines `ls`, in order. -/
def isLines (c : List Char) (ls : List (List Char)) : Prop :=
  c = nlJoin ls ∧ ∀ l ∈ ls, '\n' ∉ l

instance (c : List Char) (ls : List (List Char)) : Decidable (isLines c ls) :=
  inferInstanceAs (Decidable (c = nlJoin ls ∧ ∀ l ∈ ls, '\n' ∉ l))

/-- The shared default-pointer file '%s/loader.conf' % loader_dir. -/
def loaderConfPath (o : Opsys) (d : Drive) : String :=
  (Installer.mk0 o d).loader_dir ++ "/loader.conf"

/-- Destination of the current kernel in setup_kernel (os_folder/name.efi). -/
def kernelDestEfi (o : Opsys) (d : Drive) : String :=
  pathJoin (Installer.mk0 o d).os_folder (o.kernel_name ++ ".efi")

/-- Destination of the current initrd in setup_kernel. -/
def initrdDestPath (o : Opsys) (d : Drive) : String :=
  pathJoin (Installer.mk0 o d).os_folder o.initrd_name

/-- The current-generation loader entry file written by setup_kernel. -/
def entryCurrentPath (o : Opsys) (d : Drive) : String :=
  pathJoin (Installer.mk0 o d).entry_dir (o.name ++ "-current") ++ ".conf"

/-- The previous-generation loader entry file written by backup_old. -/
def entryOldkernPath (o : Opsys) (d : Drive) : String :=
  pathJoin (Installer.mk0 o d).entry_dir (o.name ++ "-oldkern") ++ ".conf"

/-- Destination of the previous kernel backup in backup_old. -/
def oldKernelDestPath (o : Opsys) (d : Drive) : String :=
  pathJoin (Installer.mk0 o d).os_folder (o.kernel_name ++ "-previous.efi")

/-- Destination of the previous initrd backup in backup_old. -/
def oldInitrdDestPath (o : Opsys) (d : Drive) : String :=
  pathJoin (Installer.mk0 o d).os_folder (o.initrd_name ++ "-previous")

/-- Where setup_unified_kernel publishes the chosen EFI executable:
EFI/Linux/<osName>-<generationTag>-<rootUUID>.efi under the ESP. -/
def publishDestPath (o : Opsys) (d : Drive) (old : Bool) : String :=
  pathJoin (pathJoin (Installer.mk0 o d).work_dir "Linux")
    (o.name ++ "-" ++ (if old then "previous" else "current") ++ "-"
      ++ d.root_uuid ++ ".efi")

/-- Sanity conditions on the deployment target: the ESP mount path is
nonempty without a trailing slash, and the OS name, root UUID and kernel and
initrd file names contain no slash. Any real mount point and OS metadata
satisfy these; they make the derived ESP paths structurally disjoint. -/
structure WF (o : Opsys) (d : Drive) : Prop where
  esp_ne : d.esp_path.data ≠ []
  esp_last : lastC d.esp_path.data ≠ some '/'
  name_nosl : '/' ∉ o.name.data
  uuid_nosl : '/' ∉ d.root_uuid.data
  kname_nosl : '/' ∉ o.kernel_name.data
  iname_nosl : '/' ∉ o.initrd_name.data

/-- Example OS collaborator used to instantiate proved theorems. -/
def oEx : Opsys :=
  { name := "Pop", name_pretty := "Pop!_OS", kernel_name := "vmlinuz",
    initrd_name := "initrd.img", kernel_path := "/boot/vmlinuz",
    initrd_path := "/boot/initrd.img", old_kernel_path := "/boot/vmlinuz.old",
    old_initrd_path := "/boot/initrd.img.old" }

/-- Example drive collaborator. -/
def dEx : Drive := { esp_path := "/boot/efi", root_uuid := "1234-ABCD" }

/-- Example installer (fields as __init__ computes them). -/
def iEx : Installer := Installer.mk0 oEx dEx

/-- Example firmware store state: an entry for this OS is registered at
index 3, order position 0, and refreshes keep reporting it. -/
def nEx : NVRAM :=
  { os_entry_index := 3, order_num := 0, nvram := [],
    pending := [(3, 0, ["Boot0003* Pop_OS"]), (4, 1, ["Boot0004* Pop_OS"])] }

/-- Example filesystem: ESP directory layout present, kernel/initrd sources
and /proc/cmdline readable, an existing loader.conf, and both signing files
installed. -/
def fsEx : FS :=
  { dirs := ["/boot/efi", "/boot/efi/EFI", "/boot/efi/EFI/Pop-1234-ABCD",
             "/boot/efi/loader", "/boot/efi/loader/entries"],
    files := [("/boot/vmlinuz", ['K', '1']), ("/boot/initrd.img", ['I', '1']),
              ("/boot/vmlinuz.old", ['K', '0']),
              ("/boot/initrd.img.old", ['I', '0']),
              ("/proc/cmdline", ['q']),
              ("/boot/efi/loader/loader.conf", "default Pop-current\n".data),
              ("/etc/kernelstub/mok.crt", ['C']),
              ("/etc/kernelstub/mok.key", ['S'])] }

/-- Example filesystem with no /proc/cmdline (the command-line copy then
fails). -/
def fsNoCmdline : FS :=
  { dirs := fsEx.dirs,
    files := [("/boot/vmlinuz", ['K', '1']), ("/boot/initrd.img", ['I', '1']),
              ("/boot/vmlinuz.old", ['K', '0']),
              ("/boot/initrd.img.old", ['I', '0'])] }

/-- Example gzip decompression: the identity on the example payloads. -/
def gzEx : List Char → Option (List Char) := fun c => some c

/-- Example filesystem missing the kernel source. -/
def fsNoKernel : FS :=
  { dirs := fsEx.dirs, files := [("/boot/initrd.img", ['I'])] }

/-- Example filesystem missing the initrd source. -/
def fsNoInitrd : FS :=
  { dirs := fsEx.dirs, files := [("/boot/vmlinuz", ['K'])] }

/-- The effect trace of a backup_old result (empty for the impossible error
case). -/
def backupTrace : Except Unit (Installer × St) → List Event
  | .ok (_, st) => st.2
  | .error _ => []

/-- The staging directory /tmp/kernelstub/<generationTag> used by
setup_unified_kernel. -/
def tmpDirPath (old : Bool) : String :=
  pathJoin "/tmp/kernelstub" (if old then "previous" else "current")

/-- The staged kernel command line file. -/
def cmdlinePath (old : Bool) : String := pathJoin (tmpDirPath old) "cmdline"

/-- The staged unsigned merged EFI image produced by the objcopy step. -/
def unsignedPath (old : Bool) : String :=
  pathJoin (tmpDirPath old) "linux-unsigned.efi"

/-- The staged signed EFI image produced by the sbsign step. -/
def signedPath (old : Bool) : String :=
  pathJoin (tmpDirPath old) "signed.efi"

theorem data_append (s t : String) : (s ++ t).data = s.data ++ t.data := rfl

theorem str_ne_of_data {a b : String} (h : a.data ≠ b.data) : a ≠ b :=
  fun e => h (congrArg String.data e)

theorem append_left_cancel' {p a b : List Char} (h : p ++ a = p ++ b) :
    a = b := by
  induction p with
  | nil => simpa using h
  | cons x xs ih => exact ih (by simpa using h)

theorem ne_extend (l m : List Char) (c : Char) : l ++ c :: m ≠ l := by
  intro h
  have hl := congrArg List.length h
  simp at hl

theorem lastC_append (l m : List Char) (h : m ≠ []) :
    lastC (l ++ m) = lastC m := by
  have hr : m.reverse ≠ [] := by simpa using h
  obtain ⟨b, bs, hb⟩ := List.exists_cons_of_ne_nil hr
  simp [lastC, List.reverse_append, hb]

theorem lastC_mem {l : List Char} {c : Char} (h : lastC l = some c) : c ∈ l := by
  unfold lastC at h
  cases hr : l.reverse with
  | nil => rw [hr] at h; cases h
  | cons x xs =>
      rw [hr] at h
      have hx : x = c := by simpa using h
      have hc : c ∈ l.reverse := by rw [hr, hx]; exact List.mem_cons_self _ _
      simpa using hc

theorem head_mem {l : List Char} {c : Char} (h : l.head? = some c) : c ∈ l := by
  cases l with
  | nil => cases h
  | cons x xs =>
      have hx : x = c := by simpa using h
      rw [← hx]
      exact List.mem_cons_self _ _

theorem head?_cons_ne {c c' : Char} (h : c ≠ c') (l : List Char) :
    (c :: l).head? ≠ some c' := by
  simp [h]

theorem lastC_cons_ne_slash {s : List Char} (hs : '/' ∉ s) {c : Char}
    (hc : c ≠ '/') : lastC (c :: s) ≠ some '/' := by
  intro h
  rcases List.mem_cons.mp (lastC_mem h) with h1 | h1
  · exact hc h1.symm
  · exact hs h1

theorem ne_of_lastC {a b : List Char} (h : lastC a ≠ lastC b) : a ≠ b :=
  fun e => h (by rw [e])

theorem pathJoin_eq {a b : String} (h1 : b.data.head? ≠ some '/')
    (h2 : a.data ≠ []) (h3 : lastC a.data ≠ some '/') :
    pathJoin a b = a ++ "/" ++ b := by
  simp [pathJoin, h1, h2, h3]

theorem pathJoin_data {a b : String} (h1 : b.data.head? ≠ some '/')
    (h2 : a.data ≠ []) (h3 : lastC a.data ≠ some '/') :
    (pathJoin a b).data = a.data ++ '/' :: b.data := by
  rw [pathJoin_eq h1 h2 h3, data_append, data_append]
  have hs : "/".data = ['/'] := rfl
  rw [hs, List.append_assoc]
  rfl

theorem head?_append_ne_slash {s : String} (h : '/' ∉ s.data)
    {rest : List Char} (hr : rest.head? ≠ some '/') :
    (s.data ++ rest).head? ≠ some '/' := by
  cases hs : s.data with
  | nil => simpa [hs] using hr
  | cons a l =>
      intro hh
      have ha : a = '/' := by simpa using hh
      have hm : '/' ∈ s.data := by rw [hs, ← ha]; exact List.mem_cons_self _ _
      exact h hm

theorem mem_takeWhile_sat {p : Char → Bool} {l : List Char} {a : Char}
    (h : a ∈ l.takeWhile p) : p a = true := by
  induction l with
  | nil => simp [List.takeWhile] at h
  | cons x xs ih =>
      rw [List.takeWhile_cons] at h
      by_cases hc : p x
      · rw [if_pos hc] at h
        rcases List.mem_cons.mp h with h1 | h1
        · rw [h1]; exact hc
        · exact ih h1
      · rw [if_neg hc] at h
        cases h

theorem basename_nosl (p : String) : '/' ∉ (basename p).data := by
  intro h
  have hm : '/' ∈ p.data.reverse.takeWhile (fun c => c ≠ '/') := by
    simpa [basename] using h
  have := mem_takeWhile_sat hm
  simp at this

theorem FS.read_write (fs : FS) (p q : String) (c : List Char) :
    (fs.write p c).read q = if q = p then some c else fs.read q := by
  by_cases h : q = p
  · subst h
    simp [FS.read, FS.write]
  · have hpq : (p == q) = false := beq_eq_false_iff_ne.mpr (Ne.symm h)
    simp [FS.read, FS.write, hpq, h]

theorem FS.dirExists_write (fs : FS) (p q : String) (c : List Char) :
    (fs.write p c).dirExists q = fs.dirExists q := rfl

theorem stWrite_read (st : St) (p q : String) (c : List Char) :
    (stWrite st p c).1.read q = if q = p then some c else st.1.read q := by
  simp [stWrite, FS.read_write]

theorem pathExists_of_read {fs : FS} {p : String} (h : (fs.read p).isSome) :
    fs.pathExists p = true := by
  simp [FS.pathExists, h]

theorem ensure_dir_read (st : St) (dir : String) (sim : Bool) (q : String) :
    (ensure_dir st dir sim).1.read q = st.1.read q := by
  unfold ensure_dir
  split
  · rfl
  · split
    · rfl
    · rfl

theorem ensure_dir_dirExists_ne (st : St) (dir : String) (sim : Bool)
    {q : String} (h : q ≠ dir) :
    (ensure_dir st dir sim).1.dirExists q = st.1.dirExists q := by
  unfold ensure_dir
  split
  · rfl
  · split
    · rfl
    · have hq2 : (q == dir) = false := beq_eq_false_iff_ne.mpr h
      simp [FS.dirExists, List.contains_cons, h]

theorem pathJoin_data_nosl (a : String) {b : String} (h : '/' ∉ b.data) :
    ∃ s : List Char, (pathJoin a b).data = a.data ++ s := by
  unfold pathJoin
  split
  · next hh => exact absurd (head_mem hh) h
  · split
    · next ha => exact ⟨b.data, by rw [ha]; rfl⟩
    · split
      · exact ⟨b.data, data_append a b⟩
      · refine ⟨'/' :: b.data, ?_⟩
        rw [data_append, data_append]
        have hs : "/".data = ['/'] := rfl
        rw [hs, List.append_assoc]
        rfl

theorem copy_files_read_pres {st st' : St} {src dest : String} {sim : Bool}
    (h : copy_files st src dest sim = .ok st') {q : String}
    (hq : ∀ s : List Char, q.data ≠ dest.data ++ s) :
    st'.1.read q = st.1.read q := by
  have hne : q ≠ (if st.1.dirExists dest then pathJoin dest (basename src)
      else dest) := by
    cases hde : st.1.dirExists dest
    · intro heqq
      rw [if_neg (by simp [hde])] at heqq
      exact hq [] (by rw [heqq]; simp)
    · intro heqq
      rw [if_pos (by simp [hde])] at heqq
      obtain ⟨s, hs⟩ := pathJoin_data_nosl dest (basename_nosl src)
      exact hq s (by rw [heqq, hs])
  unfold copy_files at h
  split at h
  · cases h; rfl
  · split at h
    · cases h
      rw [stWrite_read, if_neg hne]
    · cases h

theorem gunzip_files_read_pres {gz : List Char → Option (List Char)}
    {st st' : St} {src dest : String} {sim : Bool}
    (h : gunzip_files gz st src dest sim = .ok st') {q : String}
    (hq : q ≠ dest) : st'.1.read q = st.1.read q := by
  unfold gunzip_files at h
  split at h
  · cases h; rfl
  · split at h
    · split at h
      · split at h
        · cases h
        · cases h
          rw [stWrite_read, if_neg hq]
      · cases h
    · cases h

theorem esp_headtail_ne {e : List Char} {c₁ c₂ : Char} (h : c₁ ≠ c₂)
    (r₁ r₂ : List Char) : e ++ '/' :: c₁ :: r₁ ≠ e ++ '/' :: c₂ :: r₂ := by
  intro heq
  have h2 := append_left_cancel' heq
  injection h2 with _ h3
  injection h3 with h4 _
  exact h h4

theorem esp_loader_tail_ne {e : List Char} {c₁ c₂ : Char} (h : c₁ ≠ c₂)
    (r₁ r₂ : List Char) :
    e ++ '/' :: 'l' :: 'o' :: 'a' :: 'd' :: 'e' :: 'r' :: '/' :: c₁ :: r₁
      ≠ e ++ '/' :: 'l' :: 'o' :: 'a' :: 'd' :: 'e' :: 'r' :: '/' :: c₂ :: r₂ := by
  intro heq
  have h2 := append_left_cancel' heq
  injection h2 with _ h3
  injection h3 with _ h4
  injection h4 with _ h5
  injection h5 with _ h6
  injection h6 with _ h7
  injection h7 with _ h8
  injection h8 with _ h9
  injection h9 with _ h10
  injection h10 with h11 _
  exact h h11

theorem str_eq_of_data {a b : String} (h : a.data = b.data) : a = b := by
  cases a
  cases b
  exact congrArg String.mk h

theorem copy_files_read_pres2 {st st' : St} {src dest : String} {sim : Bool}
    (h : copy_files st src dest sim = .ok st') {q : String}
    (hne1 : q ≠ dest) (hne2 : q ≠ pathJoin dest (basename src)) :
    st'.1.read q = st.1.read q := by
  unfold copy_files at h
  split at h
  · cases h; rfl
  · split at h
    · cases h
      by_cases hde : st.1.dirExists dest = true
      · rw [if_pos hde, stWrite_read, if_neg hne2]
      · rw [if_neg hde, stWrite_read, if_neg hne1]
    · cases h

theorem check_call_read_pres {ok : Bool} {cmd : List String} {out : String}
    {content : List Char} {st st' : St}
    (h : check_call ok cmd out content st = .ok st') {q : String}
    (hq : q ≠ out) : st'.1.read q = st.1.read q := by
  unfold check_call at h
  split at h
  · cases h
    rw [FS.read_write, if_neg hq]
  · cases h

theorem stWrite_dirExists (st : St) (p : String) (c : List Char) (q : String) :
    (stWrite st p c).1.dirExists q = st.1.dirExists q := rfl

theorem stWrite_pathExists_ne (st : St) (p : String) (c : List Char)
    {q : String} (h : q ≠ p) :
    (stWrite st p c).1.pathExists q = st.1.pathExists q := by
  unfold FS.pathExists
  rw [stWrite_read, if_neg h]
  rfl

theorem ensure_dir_pathExists_ne (st : St) (dir : String) (sim : Bool)
    {q : String} (h : q ≠ dir) :
    (ensure_dir st dir sim).1.pathExists q = st.1.pathExists q := by
  unfold FS.pathExists
  rw [ensure_dir_read, ensure_dir_dirExists_ne _ _ _ h]

theorem check_call_pathExists_ne {ok : Bool} {cmd : List String} {out : String}
    {content : List Char} {st st' : St}
    (h : check_call ok cmd out content st = .ok st') {q : String}
    (hq : q ≠ out) : st'.1.pathExists q = st.1.pathExists q := by
  unfold check_call at h
  split at h
  · cases h
    unfold FS.pathExists
    rw [FS.read_write, if_neg hq]
    rfl
  · cases h

theorem lastC_str_append_concrete {s t : String} (ht : t.data ≠ []) :
    lastC (s ++ t).data = lastC t.data := by
  rw [data_append]
  exact lastC_append _ _ ht

theorem lastC_pathJoin {a b : String} (hb : b.data ≠ []) :
    lastC (pathJoin a b).data = lastC b.data := by
  unfold pathJoin
  split
  · rfl
  · split
    · rfl
    · split
      · rw [data_append]
        exact lastC_append _ _ hb
      · have hm : ("/" : String).data ++ b.data ≠ [] := by simp
        rw [data_append, data_append, List.append_assoc, lastC_append _ _ hm]
        exact lastC_append _ _ hb

theorem loader_dir_data {o : Opsys} {d : Drive} (wf : WF o d) :
    (Installer.mk0 o d).loader_dir.data
      = d.esp_path.data
          ++ '/' :: 'l' :: 'o' :: 'a' :: 'd' :: 'e' :: 'r' :: [] := by
  show (pathJoin d.esp_path "loader").data = _
  rw [pathJoin_data (by decide) wf.esp_ne wf.esp_last]

theorem work_dir_data {o : Opsys} {d : Drive} (wf : WF o d) :
    (Installer.mk0 o d).work_dir.data
      = d.esp_path.data ++ '/' :: 'E' :: 'F' :: 'I' :: [] := by
  show (pathJoin d.esp_path "EFI").data = _
  rw [pathJoin_data (by decide) wf.esp_ne wf.esp_last]

theorem os_dir_name_data (o : Opsys) (d : Drive) :
    (Installer.mk0 o d).os_dir_name.data
      = o.name.data ++ '-' :: d.root_uuid.data := by
  show ((o.name ++ "-") ++ d.root_uuid).data = _
  rw [data_append, data_append, List.append_assoc]
  rfl

theorem os_folder_data {o : Opsys} {d : Drive} (wf : WF o d) :
    (Installer.mk0 o d).os_folder.data
      = d.esp_path.data ++ '/' :: 'E' :: 'F' :: 'I' :: '/'
          :: (o.name.data ++ '-' :: d.root_uuid.data) := by
  show (pathJoin (Installer.mk0 o d).work_dir
    (Installer.mk0 o d).os_dir_name).data = _
  have h1 : (Installer.mk0 o d).os_dir_name.data.head? ≠ some '/' := by
    rw [os_dir_name_data]
    exact head?_append_ne_slash wf.name_nosl (head?_cons_ne (by decide) _)
  have h2 : (Installer.mk0 o d).work_dir.data ≠ [] := by
    rw [work_dir_data wf]; simp
  have h3 : lastC (Installer.mk0 o d).work_dir.data ≠ some '/' := by
    rw [work_dir_data wf, lastC_append _ _ (by simp)]
    decide
  rw [pathJoin_data h1 h2 h3, work_dir_data wf, os_dir_name_data,
    List.append_assoc]
  rfl

theorem os_folder_ne_nil {o : Opsys} {d : Drive} (wf : WF o d) :
    (Installer.mk0 o d).os_folder.data ≠ [] := by
  rw [os_folder_data wf]; simp

theorem os_folder_lastC {o : Opsys} {d : Drive} (wf : WF o d) :
    lastC (Installer.mk0 o d).os_folder.data ≠ some '/' := by
  rw [os_folder_data wf, lastC_append _ _ (by simp)]
  show lastC (['/', 'E', 'F', 'I', '/']
    ++ (o.name.data ++ '-' :: d.root_uuid.data)) ≠ some '/'
  rw [lastC_append _ _ (by simp), lastC_append _ _ (by simp)]
  exact lastC_cons_ne_slash wf.uuid_nosl (by decide)

theorem kdest_data {o : Opsys} {d : Drive} (wf : WF o d) :
    (kernelDestEfi o d).data
      = d.esp_path.data ++ '/' :: 'E' :: 'F' :: 'I' :: '/'
          :: ((o.name.data ++ '-' :: d.root_uuid.data)
              ++ '/' :: (o.kernel_name.data
                ++ '.' :: 'e' :: 'f' :: 'i' :: [])) := by
  unfold kernelDestEfi
  have h1 : (o.kernel_name ++ ".efi").data.head? ≠ some '/' := by
    rw [data_append]
    exact head?_append_ne_slash wf.kname_nosl (head?_cons_ne (by decide) _)
  rw [pathJoin_data h1 (os_folder_ne_nil wf) (os_folder_lastC wf),
    os_folder_data wf, data_append, List.append_assoc]
  rfl

theorem idest_data {o : Opsys} {d : Drive} (wf : WF o d) :
    (initrdDestPath o d).data
      = d.esp_path.data ++ '/' :: 'E' :: 'F' :: 'I' :: '/'
          :: ((o.name.data ++ '-' :: d.root_uuid.data)
              ++ '/' :: o.initrd_name.data) := by
  unfold initrdDestPath
  rw [pathJoin_data (fun hh => wf.iname_nosl (head_mem hh))
    (os_folder_ne_nil wf) (os_folder_lastC wf), os_folder_data wf,
    List.append_assoc]
  rfl

theorem oldKernelDest_data {o : Opsys} {d : Drive} (wf : WF o d) :
    (oldKernelDestPath o d).data
      = d.esp_path.data ++ '/' :: 'E' :: 'F' :: 'I' :: '/'
          :: ((o.name.data ++ '-' :: d.root_uuid.data)
              ++ '/' :: (o.kernel_name.data
                ++ '-' :: 'p' :: 'r' :: 'e' :: 'v' :: 'i' :: 'o' :: 'u' :: 's'
                  :: '.' :: 'e' :: 'f' :: 'i' :: [])) := by
  unfold oldKernelDestPath
  have h1 : (o.kernel_name ++ "-previous.efi").data.head? ≠ some '/' := by
    rw [data_append]
    exact head?_append_ne_slash wf.kname_nosl (head?_cons_ne (by decide) _)
  rw [pathJoin_data h1 (os_folder_ne_nil wf) (os_folder_lastC wf),
    os_folder_data wf, data_append, List.append_assoc]
  rfl

theorem oldInitrdDest_data {o : Opsys} {d : Drive} (wf : WF o d) :
    (oldInitrdDestPath o d).data
      = d.esp_path.data ++ '/' :: 'E' :: 'F' :: 'I' :: '/'
          :: ((o.name.data ++ '-' :: d.root_uuid.data)
              ++ '/' :: (o.initrd_name.data
                ++ '-' :: 'p' :: 'r' :: 'e' :: 'v' :: 'i' :: 'o' :: 'u' :: 's'
                  :: [])) := by
  unfold oldInitrdDestPath
  have h1 : (o.initrd_name ++ "-previous").data.head? ≠ some '/' := by
    rw [data_append]
    exact head?_append_ne_slash wf.iname_nosl (head?_cons_ne (by decide) _)
  rw [pathJoin_data h1 (os_folder_ne_nil wf) (os_folder_lastC wf),
    os_folder_data wf, data_append, List.append_assoc]
  rfl

theorem loaderConf_data {o : Opsys} {d : Drive} (wf : WF o d) :
    (loaderConfPath o d).data
      = d.esp_path.data
          ++ '/' :: 'l' :: 'o' :: 'a' :: 'd' :: 'e' :: 'r'
          :: '/' :: 'l' :: 'o' :: 'a' :: 'd' :: 'e' :: 'r'
          :: '.' :: 'c' :: 'o' :: 'n' :: 'f' :: [] := by
  unfold loaderConfPath
  rw [data_append, loader_dir_data wf, List.append_assoc]
  rfl

theorem entry_dir_data {o : Opsys} {d : Drive} (wf : WF o d) :
    (Installer.mk0 o d).entry_dir.data
      = d.esp_path.data
          ++ '/' :: 'l' :: 'o' :: 'a' :: 'd' :: 'e' :: 'r'
          :: '/' :: 'e' :: 'n' :: 't' :: 'r' :: 'i' :: 'e' :: 's' :: [] := by
  show (pathJoin (Installer.mk0 o d).loader_dir "entries").data = _
  have h2 : (Installer.mk0 o d).loader_dir.data ≠ [] := by
    rw [loader_dir_data wf]; simp
  have h3 : lastC (Installer.mk0 o d).loader_dir.data ≠ some '/' := by
    rw [loader_dir_data wf, lastC_append _ _ (by simp)]
    decide
  rw [pathJoin_data (by decide) h2 h3, loader_dir_data wf, List.append_assoc]
  rfl

theorem entry_dir_ne_nil {o : Opsys} {d : Drive} (wf : WF o d) :
    (Installer.mk0 o d).entry_dir.data ≠ [] := by
  rw [entry_dir_data wf]; simp

theorem entry_dir_lastC {o : Opsys} {d : Drive} (wf : WF o d) :
    lastC (Installer.mk0 o d).entry_dir.data ≠ some '/' := by
  rw [entry_dir_data wf, lastC_append _ _ (by simp)]
  decide

theorem entryCurrent_data {o : Opsys} {d : Drive} (wf : WF o d) :
    (entryCurrentPath o d).data
      = d.esp_path.data
          ++ '/' :: 'l' :: 'o' :: 'a' :: 'd' :: 'e' :: 'r'
          :: '/' :: 'e' :: 'n' :: 't' :: 'r' :: 'i' :: 'e' :: 's' :: '/'
          :: (o.name.data ++ '-' :: 'c' :: 'u' :: 'r' :: 'r' :: 'e' :: 'n'
              :: 't' :: '.' :: 'c' :: 'o' :: 'n' :: 'f' :: []) := by
  unfold entryCurrentPath
  have h1 : (o.name ++ "-current").data.head? ≠ some '/' := by
    rw [data_append]
    exact head?_append_ne_slash wf.name_nosl (head?_cons_ne (by decide) _)
  rw [data_append, pathJoin_data h1 (entry_dir_ne_nil wf) (entry_dir_lastC wf),
    entry_dir_data wf, data_append]
  simp only [List.append_assoc, List.cons_append]
  rfl

theorem entryOldkern_data {o : Opsys} {d : Drive} (wf : WF o d) :
    (entryOldkernPath o d).data
      = d.esp_path.data
          ++ '/' :: 'l' :: 'o' :: 'a' :: 'd' :: 'e' :: 'r'
          :: '/' :: 'e' :: 'n' :: 't' :: 'r' :: 'i' :: 'e' :: 's' :: '/'
          :: (o.name.data ++ '-' :: 'o' :: 'l' :: 'd' :: 'k' :: 'e' :: 'r'
              :: 'n' :: '.' :: 'c' :: 'o' :: 'n' :: 'f' :: []) := by
  unfold entryOldkernPath
  have h1 : (o.name ++ "-oldkern").data.head? ≠ some '/' := by
    rw [data_append]
    exact head?_append_ne_slash wf.name_nosl (head?_cons_ne (by decide) _)
  rw [data_append, pathJoin_data h1 (entry_dir_ne_nil wf) (entry_dir_lastC wf),
    entry_dir_data wf, data_append]
  simp only [List.append_assoc, List.cons_append]
  rfl

theorem lc_ne_kdest_fam {o : Opsys} {d : Drive} (wf : WF o d) (s : List Char) :
    (loaderConfPath o d).data ≠ (kernelDestEfi o d).data ++ s := by
  rw [loaderConf_data wf, kdest_data wf, List.append_assoc]
  exact esp_headtail_ne (by decide) _ _

theorem lc_ne_idest_fam {o : Opsys} {d : Drive} (wf : WF o d) (s : List Char) :
    (loaderConfPath o d).data ≠ (initrdDestPath o d).data ++ s := by
  rw [loaderConf_data wf, idest_data wf, List.append_assoc]
  exact esp_headtail_ne (by decide) _ _

theorem lc_ne_entryCurrent {o : Opsys} {d : Drive} (wf : WF o d) :
    loaderConfPath o d ≠ entryCurrentPath o d := by
  apply str_ne_of_data
  rw [loaderConf_data wf, entryCurrent_data wf]
  exact esp_loader_tail_ne (by decide) _ _

theorem kdest_ne_lc {o : Opsys} {d : Drive} (wf : WF o d) :
    kernelDestEfi o d ≠ loaderConfPath o d := by
  intro h
  exact lc_ne_kdest_fam wf [] (by rw [← h, List.append_nil])

theorem idest_ne_lc {o : Opsys} {d : Drive} (wf : WF o d) :
    initrdDestPath o d ≠ loaderConfPath o d := by
  intro h
  exact lc_ne_idest_fam wf [] (by rw [← h, List.append_nil])

theorem kdest_ne_entryCurrent {o : Opsys} {d : Drive} (wf : WF o d) :
    kernelDestEfi o d ≠ entryCurrentPath o d := by
  apply str_ne_of_data
  rw [kdest_data wf, entryCurrent_data wf]
  exact esp_headtail_ne (by decide) _ _

theorem idest_ne_entryCurrent {o : Opsys} {d : Drive} (wf : WF o d) :
    initrdDestPath o d ≠ entryCurrentPath o d := by
  apply str_ne_of_data
  rw [idest_data wf, entryCurrent_data wf]
  exact esp_headtail_ne (by decide) _ _

theorem kdest_ne_idest {o : Opsys} {d : Drive} (wf : WF o d)
    (hki : o.initrd_name ≠ o.kernel_name ++ ".efi") :
    kernelDestEfi o d ≠ initrdDestPath o d := by
  apply str_ne_of_data
  rw [kdest_data wf, idest_data wf]
  intro h
  have h2 := append_left_cancel' h
  injection h2 with _ h3
  injection h3 with _ h4
  injection h4 with _ h5
  injection h5 with _ h6
  injection h6 with _ h7
  have h8 := append_left_cancel' h7
  injection h8 with _ h9
  exact hki (str_eq_of_data h9.symm)

theorem entryOldkern_ne_oldKernelDest {o : Opsys} {d : Drive} (wf : WF o d) :
    entryOldkernPath o d ≠ oldKernelDestPath o d := by
  apply str_ne_of_data
  rw [entryOldkern_data wf, oldKernelDest_data wf]
  exact esp_headtail_ne (by decide) _ _

theorem entryOldkern_ne_oldInitrdDest {o : Opsys} {d : Drive} (wf : WF o d) :
    entryOldkernPath o d ≠ oldInitrdDestPath o d := by
  apply str_ne_of_data
  rw [entryOldkern_data wf, oldInitrdDest_data wf]
  exact esp_headtail_ne (by decide) _ _

theorem pathJoin_data_ne_nil {a b : String} (hb : b.data ≠ []) :
    (pathJoin a b).data ≠ [] := by
  unfold pathJoin
  split
  · exact hb
  · split
    · exact hb
    · split
      · rw [data_append]; simp [hb]
      · rw [data_append, data_append]; simp [hb]

theorem ld_lastC (o : Opsys) (d : Drive) :
    lastC (Installer.mk0 o d).loader_dir.data = some 'r' := by
  show lastC (pathJoin d.esp_path "loader").data = _
  rw [lastC_pathJoin (by decide)]
  decide

theorem ld_ne_nil (o : Opsys) (d : Drive) :
    (Installer.mk0 o d).loader_dir.data ≠ [] :=
  pathJoin_data_ne_nil (by decide)

theorem ed_ne_ld (o : Opsys) (d : Drive) :
    (Installer.mk0 o d).entry_dir ≠ (Installer.mk0 o d).loader_dir := by
  apply str_ne_of_data
  show (pathJoin (Installer.mk0 o d).loader_dir "entries").data ≠ _
  rw [pathJoin_data (by decide) (ld_ne_nil o d) (by rw [ld_lastC]; decide)]
  exact ne_extend _ _ _

theorem pathExists_dirsCons_ne {fs : FS} {p q : String} (h : q ≠ p) :
    ({ fs with dirs := p :: fs.dirs } : FS).pathExists q = fs.pathExists q := by
  simp [FS.pathExists, FS.dirExists, FS.read, List.contains_cons, h]

/-- C10: Constructing the Installer always creates the loader directory and
the loader/entries directory under the ESP when they do not exist (in the
os.path.exists sense), as an unconditional side effect of construction,
before any operation is invoked: after __init__ both paths exist, and a
mkdir effect is recorded for precisely the ones that were absent. The
constructor takes no simulate or dry-run parameter (mirroring the source),
so no flag can suppress this. -/
theorem installer_init_creates_dirs (o : Opsys) (d : Drive) (fs : FS)
    (tr : List Event) :
    ((Installer.init o d (fs, tr)).2.1.pathExists
        (Installer.mk0 o d).loader_dir = true)
    ∧ ((Installer.init o d (fs, tr)).2.1.pathExists
        (Installer.mk0 o d).entry_dir = true)
    ∧ (Installer.init o d (fs, tr)).2.2
        = tr ++ (if fs.pathExists (Installer.mk0 o d).loader_dir then []
                 else [Event.mkdir (Installer.mk0 o d).loader_dir])
             ++ (if fs.pathExists (Installer.mk0 o d).entry_dir then []
                 else [Event.mkdir (Installer.mk0 o d).entry_dir]) := by
  have hne := ed_ne_ld o d
  simp only [Installer.init]
  by_cases h1 : fs.pathExists (Installer.mk0 o d).loader_dir = true
  · rw [if_pos h1, if_pos h1]
    by_cases h2 : fs.pathExists (Installer.mk0 o d).entry_dir = true
    · rw [if_pos h2, if_pos h2]
      exact ⟨h1, h2, by simp⟩
    · rw [if_neg h2, if_neg h2]
      refine ⟨?_, ?_, by simp⟩
      · rw [pathExists_dirsCons_ne (Ne.symm hne)]
        exact h1
      · simp [FS.pathExists, FS.dirExists, List.contains_cons]
  · rw [if_neg h1, if_neg h1]
    by_cases h2 : fs.pathExists (Installer.mk0 o d).entry_dir = true
    · have h2' : ({ fs with
          dirs := (Installer.mk0 o d).loader_dir :: fs.dirs } : FS).pathExists
            (Installer.mk0 o d).entry_dir = true := by
        rw [pathExists_dirsCons_ne hne]; exact h2
      rw [if_pos h2', if_pos h2]
      refine ⟨?_, h2', by simp⟩
      simp [FS.pathExists, FS.dirExists, List.contains_cons]
    · have h2' : ¬ ({ fs with
          dirs := (Installer.mk0 o d).loader_dir :: fs.dirs } : FS).pathExists
            (Installer.mk0 o d).entry_dir = true := by
        rw [pathExists_dirsCons_ne hne]; exact h2
      rw [if_neg h2', if_neg h2]
      refine ⟨?_, ?_, by simp⟩
      · rw [pathExists_dirsCons_ne (Ne.symm hne)]
        simp [FS.pathExists, FS.dirExists, List.contains_cons]
      · simp [FS.pathExists, FS.dirExists, List.contains_cons]

/-- C4 as stated is false on the code: with an options string containing an
embedded newline ("a\nb"), the file written by make_loader_entry does not
consist of exactly the four newline-terminated field lines (no escaping is
performed, so the value's newline splits the options line in two). -/
theorem make_loader_entry_embedded_newline :
    ¬ isLines
        (((make_loader_entry ((⟨[], []⟩ : FS), []) "T" "/l" "/i" "a\nb"
            "/boot/efi/loader/entries/Pop-current").1.read
          "/boot/efi/loader/entries/Pop-current.conf").getD [])
        (fourLines "T" "/l" "/i" "a\nb") := by
  decide

/-- C4 (amended): provided none of the four field values contains a newline
character, make_loader_entry leaves <filename>.conf containing exactly the
four newline-terminated lines title, linux, initrd, options, in that fixed
order (keyword followed by the given value), and any prior content of the
file is fully replaced: the resulting content does not depend on the
previous state. -/
theorem make_loader_entry_four_lines (st : St)
    (title linux initrd options filename : String)
    (h1 : '\n' ∉ title.data) (h2 : '\n' ∉ linux.data)
    (h3 : '\n' ∉ initrd.data) (h4 : '\n' ∉ options.data) :
    (make_loader_entry st title linux initrd options filename).1.read
        (filename ++ ".conf")
      = some (nlJoin (fourLines title linux initrd options))
    ∧ isLines (nlJoin (fourLines title linux initrd options))
        (fourLines title linux initrd options) := by
  have key : ∀ (pre : List Char) (s : String), '\n' ∉ pre → '\n' ∉ s.data →
      '\n' ∉ pre ++ s.data :=
    fun pre s hp hs hm => (List.mem_append.mp hm).elim hp hs
  constructor
  · unfold make_loader_entry
    rw [stWrite_read, if_pos rfl]
    congr 1
    simp [nlJoin, fourLines, List.append_assoc]
  · refine ⟨rfl, ?_⟩
    intro l hl
    rcases List.mem_cons.mp hl with h | hl
    · rw [h]; exact key _ _ (by decide) h1
    rcases List.mem_cons.mp hl with h | hl
    · rw [h]; exact key _ _ (by decide) h2
    rcases List.mem_cons.mp hl with h | hl
    · rw [h]; exact key _ _ (by decide) h3
    rcases List.mem_cons.mp hl with h | hl
    · rw [h]; exact key _ _ (by decide) h4
    cases hl

/-- Witness for the amended C4 theorem at a concrete input. -/
theorem make_loader_entry_four_lines_witness :
    (make_loader_entry ((⟨[], []⟩ : FS), []) "Pop!_OS" "/EFI/Pop/vmlinuz.efi"
        "/EFI/Pop/initrd.img" "root=UUID=x ro quiet"
        "/boot/efi/loader/entries/Pop-current").1.read
      "/boot/efi/loader/entries/Pop-current.conf"
      = some (nlJoin (fourLines "Pop!_OS" "/EFI/Pop/vmlinuz.efi"
          "/EFI/Pop/initrd.img" "root=UUID=x ro quiet")) :=
  (make_loader_entry_four_lines _ _ _ _ _ _ (by decide) (by decide) (by decide)
    (by decide)).1

/-- C1 fails on the code (code bug): running backup_old with simulate active
and setup_loader requested, on a system whose resolved old and current
kernel paths differ, still creates the previous-generation loader entry file
under the ESP tree, because make_loader_entry has no simulate gate and
backup_old calls it (and ensure_dir with its default simulate=False)
whenever both simulated copies "succeed". The spec requires that with
simulate active no file under the ESP tree is created. -/
theorem backup_old_simulate_writes_entry :
    Event.fileWrite "/boot/efi/loader/entries/Pop-oldkern.conf"
      ∈ backupTrace (backup_old (fun s => s) iEx (fsEx, []) "opts" true true) := by
  decide

theorem copy_files_nvTrace {st st' : St} {src dest : String} {sim : Bool}
    (h : copy_files st src dest sim = .ok st') :
    nvTrace st'.2 = nvTrace st.2 := by
  unfold copy_files at h
  split at h
  · cases h; rfl
  · split at h
    · cases h
      simp [stWrite, nvTrace, List.filter_append, isNvEvent]
    · cases h

/-- C3: for every completed invocation of setup_stub, the sequence of
operations issued against the firmware boot-variable store is exactly: one
refresh, then one deleteEntry (at the refreshed order position) issued if
and only if the refreshed entry index is >= 0 (i.e. not the absent
sentinel), then exactly one addEntry, then a second refresh. In particular
there is at most one delete and exactly one add, the delete (when issued)
precedes the add, a refresh precedes the delete decision, and a second
refresh follows the add. -/
theorem setup_stub_nvram_protocol (i : Installer) (n : NVRAM) (fs : FS)
    (tr : List Event) (kernel_opts : String) (simulate : Bool)
    (n' : NVRAM) (st' : St)
    (h : setup_stub i n (fs, tr) kernel_opts simulate = ((n', st'), .ok ())) :
    nvTrace st'.2
      = nvTrace tr
        ++ Event.nvramRefresh
          :: ((if n.update.os_entry_index ≥ 0
               then [Event.nvramDelete n.update.order_num simulate] else [])
            ++ [Event.nvramAdd simulate, Event.nvramRefresh]) := by
  unfold setup_stub at h
  cases hcc : copy_cmdline i (fs, tr) simulate with
  | error e =>
      rw [hcc] at h
      have h2 := congrArg Prod.snd h
      simp at h2
  | ok st1 =>
      rw [hcc] at h
      have hS := congrArg (fun x => x.1.2) h
      dsimp at hS
      rw [← hS]
      have hcc' : copy_files (fs, tr) "/proc/cmdline" i.os_folder simulate
          = .ok st1 := hcc
      have hc := copy_files_nvTrace hcc'
      by_cases hidx : n.update.os_entry_index ≥ 0
      · rw [if_pos hidx, if_pos hidx]
        simp [nvTrace, List.filter_append, isNvEvent] at hc ⊢
        rw [hc]
      · rw [if_neg hidx, if_neg hidx]
        simp [nvTrace, List.filter_append, isNvEvent] at hc ⊢
        rw [hc]

/-- Witness: the C3 protocol theorem instantiated on the example installer,
example firmware snapshots (entry present at index 3, order position 0) and
example filesystem; the issued firmware trace is refresh, delete, add,
refresh. -/
theorem setup_stub_nvram_protocol_witness :
    nvTrace (setup_stub iEx nEx (fsEx, []) "opts" false).1.2.2
      = [Event.nvramRefresh, Event.nvramDelete 0 false, Event.nvramAdd false,
         Event.nvramRefresh] := by
  have hrun : setup_stub iEx nEx (fsEx, []) "opts" false
      = (((setup_stub iEx nEx (fsEx, []) "opts" false).1.1,
          (setup_stub iEx nEx (fsEx, []) "opts" false).1.2), .ok ()) := by
    rfl
  have h := setup_stub_nvram_protocol iEx nEx fsEx [] "opts" false _ _ hrun
  rw [h]
  decide

theorem wfEx : WF oEx dEx :=
  ⟨by decide, by decide, by decide, by decide, by decide, by decide⟩

theorem mk0_opsys (o : Opsys) (d : Drive) : (Installer.mk0 o d).opsys = o := rfl

theorem mk0_drive (o : Opsys) (d : Drive) : (Installer.mk0 o d).drive = d := rfl

theorem kernelDestEfi_eq (o : Opsys) (d : Drive) :
    pathJoin (Installer.mk0 o d).os_folder (o.kernel_name ++ ".efi")
      = kernelDestEfi o d := rfl

theorem initrdDestPath_eq (o : Opsys) (d : Drive) :
    pathJoin (Installer.mk0 o d).os_folder o.initrd_name
      = initrdDestPath o d := rfl

theorem entryCurrentPath_eq (o : Opsys) (d : Drive) :
    pathJoin (Installer.mk0 o d).entry_dir (o.name ++ "-current") ++ ".conf"
      = entryCurrentPath o d := rfl

theorem entryOldkernPath_eq (o : Opsys) (d : Drive) :
    pathJoin (Installer.mk0 o d).entry_dir (o.name ++ "-oldkern") ++ ".conf"
      = entryOldkernPath o d := rfl

theorem loaderConfPath_eq (o : Opsys) (d : Drive) :
    (Installer.mk0 o d).loader_dir ++ "/loader.conf" = loaderConfPath o d := rfl

theorem oldKernelDestPath_eq (o : Opsys) (d : Drive) :
    pathJoin (Installer.mk0 o d).os_folder (o.kernel_name ++ "-previous.efi")
      = oldKernelDestPath o d := rfl

theorem oldInitrdDestPath_eq (o : Opsys) (d : Drive) :
    pathJoin (Installer.mk0 o d).os_folder (o.initrd_name ++ "-previous")
      = oldInitrdDestPath o d := rfl

theorem copy_files_none {st : St} {src dest : String}
    (h : st.1.read src = none) : copy_files st src dest false = .error () := by
  simp [copy_files, h]

theorem copy_files_some {st : St} {src dest : String} {c : List Char}
    (h : st.1.read src = some c) (hd : st.1.dirExists dest = false) :
    copy_files st src dest false = .ok (stWrite st dest c) := by
  simp [copy_files, h, hd]

theorem gunzip_files_none {gz : List Char → Option (List Char)} {st : St}
    {src dest : String} (h : (st.1.read src).bind gz = none) :
    gunzip_files gz st src dest false = .error () := by
  unfold gunzip_files
  cases hr : st.1.read src with
  | none => simp [hr]
  | some c =>
      rw [hr] at h
      simp at h
      simp [hr, h]

theorem gunzip_files_some {gz : List Char → Option (List Char)} {st : St}
    {src dest : String} {u : List Char}
    (h : (st.1.read src).bind gz = some u)
    (hd : st.1.dirExists dest = false) :
    gunzip_files gz st src dest false = .ok (stWrite st dest u) := by
  unfold gunzip_files
  cases hr : st.1.read src with
  | none => rw [hr] at h; simp at h
  | some c =>
      rw [hr] at h
      simp at h
      simp [hr, h, hd]

theorem kdest_ne_osfolder {o : Opsys} {d : Drive} (wf : WF o d) :
    kernelDestEfi o d ≠ (Installer.mk0 o d).os_folder := by
  have h1 : (o.kernel_name ++ ".efi").data.head? ≠ some '/' := by
    rw [data_append]
    exact head?_append_ne_slash wf.kname_nosl (head?_cons_ne (by decide) _)
  apply str_ne_of_data
  unfold kernelDestEfi
  rw [pathJoin_data h1 (os_folder_ne_nil wf) (os_folder_lastC wf)]
  exact ne_extend _ _ _

theorem idest_ne_osfolder {o : Opsys} {d : Drive} (wf : WF o d) :
    initrdDestPath o d ≠ (Installer.mk0 o d).os_folder := by
  apply str_ne_of_data
  unfold initrdDestPath
  rw [pathJoin_data (fun hh => wf.iname_nosl (head_mem hh))
    (os_folder_ne_nil wf) (os_folder_lastC wf)]
  exact ne_extend _ _ _

/-- C9: for every non-simulated run of setup_kernel, a failure to place the
current kernel artifact (source unreadable, or invalid gzip data on
arm64/aarch64) aborts the run immediately with exit status 170, while a
failure to copy the current initrd after a successful kernel placement
aborts immediately with exit status 171; the two fatal causes are
distinguishable by these distinct, fixed exit codes. -/
theorem setup_kernel_distinct_fatal_exits
    (gz : List Char → Option (List Char)) (arch : String) (o : Opsys)
    (d : Drive) (wf : WF o d) (fs : FS) (tr : List Event)
    (kernel_opts : String) (sl ow : Bool)
    (hkd : fs.dirExists (kernelDestEfi o d) = false)
    (hip : o.initrd_path ≠ kernelDestEfi o d) :
    ((if arch = "arm64" || arch = "aarch64"
      then (fs.read o.kernel_path).bind gz else fs.read o.kernel_path) = none →
      (setup_kernel gz arch (Installer.mk0 o d) (fs, tr) kernel_opts sl ow
        false).2 = .error 170)
    ∧ (∀ ck, (if arch = "arm64" || arch = "aarch64"
        then (fs.read o.kernel_path).bind gz
        else fs.read o.kernel_path) = some ck →
      fs.read o.initrd_path = none →
      (setup_kernel gz arch (Installer.mk0 o d) (fs, tr) kernel_opts sl ow
        false).2 = .error 171)
    ∧ (170 : Nat) ≠ 171 := by
  have hko := kdest_ne_osfolder wf
  refine ⟨?_, ?_, by decide⟩
  · intro hnone
    simp only [setup_kernel, mk0_opsys, kernelDestEfi_eq]
    by_cases harm : (arch = "arm64" || arch = "aarch64") = true
    · rw [if_pos harm] at hnone
      rw [if_pos harm, gunzip_files_none (by rw [ensure_dir_read]; exact hnone)]
    · rw [if_neg harm] at hnone
      rw [if_neg harm, copy_files_none (by rw [ensure_dir_read]; exact hnone)]
  · intro ck hck hinone
    simp only [setup_kernel, mk0_opsys, kernelDestEfi_eq]
    have hkd' : (ensure_dir (fs, tr) (Installer.mk0 o d).os_folder
        false).1.dirExists (kernelDestEfi o d) = false := by
      rw [ensure_dir_dirExists_ne _ _ _ hko]
      exact hkd
    have hin : (stWrite (ensure_dir (fs, tr) (Installer.mk0 o d).os_folder
        false) (kernelDestEfi o d) ck).1.read o.initrd_path = none := by
      rw [stWrite_read, if_neg hip, ensure_dir_read]
      exact hinone
    by_cases harm : (arch = "arm64" || arch = "aarch64") = true
    · rw [if_pos harm] at hck
      have hck' : ((ensure_dir (fs, tr) (Installer.mk0 o d).os_folder
          false).1.read o.kernel_path).bind gz = some ck := by
        rw [ensure_dir_read]
        exact hck
      rw [if_pos harm, gunzip_files_some hck' hkd']
      dsimp only
      rw [copy_files_none hin]
    · rw [if_neg harm] at hck
      have hck' : (ensure_dir (fs, tr) (Installer.mk0 o d).os_folder
          false).1.read o.kernel_path = some ck := by
        rw [ensure_dir_read]
        exact hck
      rw [if_neg harm, copy_files_some hck' hkd']
      dsimp only
      rw [copy_files_none hin]

/-- Witness: on the example target, a missing kernel source exits with 170
and a missing initrd source exits with 171. -/
theorem setup_kernel_distinct_fatal_exits_witness :
    (setup_kernel gzEx "x86_64" iEx (fsNoKernel, []) "opts" false false
      false).2 = .error 170
    ∧ (setup_kernel gzEx "x86_64" iEx (fsNoInitrd, []) "opts" false false
      false).2 = .error 171 :=
  ⟨(setup_kernel_distinct_fatal_exits gzEx "x86_64" oEx dEx wfEx fsNoKernel []
      "opts" false false (by decide) (by decide)).1 (by decide),
   (setup_kernel_distinct_fatal_exits gzEx "x86_64" oEx dEx wfEx fsNoInitrd []
      "opts" false false (by decide) (by decide)).2.1 ['K'] (by decide)
     (by decide)⟩

theorem make_loader_entry_read_ne (st : St) (t l ir op f : String)
    {q : String} (h : q ≠ f ++ ".conf") :
    (make_loader_entry st t l ir op f).1.read q = st.1.read q := by
  unfold make_loader_entry
  rw [stWrite_read, if_neg h]

/-- C2: for every successful non-simulated run of setup_kernel, the kernel
file deployed to the generation folder is byte-identical to the source
kernel file on architectures other than arm64/aarch64, and equals the gzip
decompression of the source on arm64/aarch64; the initrd is copied
byte-identically on every architecture. -/
theorem setup_kernel_deploys_exact_bytes
    (gz : List Char → Option (List Char)) (arch : String) (o : Opsys)
    (d : Drive) (wf : WF o d) (fs : FS) (tr : List Event)
    (kernel_opts : String) (sl ow : Bool)
    (hki : o.initrd_name ≠ o.kernel_name ++ ".efi")
    (hkd : fs.dirExists (kernelDestEfi o d) = false)
    (hid : fs.dirExists (initrdDestPath o d) = false)
    (hip : o.initrd_path ≠ kernelDestEfi o d)
    (hok : (setup_kernel gz arch (Installer.mk0 o d) (fs, tr) kernel_opts sl
      ow false).2 = .ok ()) :
    (setup_kernel gz arch (Installer.mk0 o d) (fs, tr) kernel_opts sl ow
        false).1.1.read (kernelDestEfi o d)
      = (if arch = "arm64" || arch = "aarch64"
         then (fs.read o.kernel_path).bind gz else fs.read o.kernel_path)
    ∧ (setup_kernel gz arch (Installer.mk0 o d) (fs, tr) kernel_opts sl ow
        false).1.1.read (initrdDestPath o d)
      = fs.read o.initrd_path := by
  have hkiP := kdest_ne_idest wf hki
  have hke := kdest_ne_entryCurrent wf
  have hklc := kdest_ne_lc wf
  have hie := idest_ne_entryCurrent wf
  have hilc := idest_ne_lc wf
  have hkd' : (ensure_dir (fs, tr) (Installer.mk0 o d).os_folder
      false).1.dirExists (kernelDestEfi o d) = false := by
    rw [ensure_dir_dirExists_ne _ _ _ (kdest_ne_osfolder wf)]
    exact hkd
  cases hkv : (if arch = "arm64" || arch = "aarch64"
      then (fs.read o.kernel_path).bind gz else fs.read o.kernel_path) with
  | none =>
      exfalso
      have hstep : (if arch = "arm64" || arch = "aarch64"
          then gunzip_files gz (ensure_dir (fs, tr)
            (Installer.mk0 o d).os_folder false) o.kernel_path
            (kernelDestEfi o d) false
          else copy_files (ensure_dir (fs, tr)
            (Installer.mk0 o d).os_folder false) o.kernel_path
            (kernelDestEfi o d) false) = .error () := by
        by_cases harm : (arch = "arm64" || arch = "aarch64") = true
        · rw [if_pos harm] at hkv ⊢
          apply gunzip_files_none
          rw [ensure_dir_read]
          exact hkv
        · rw [if_neg harm] at hkv ⊢
          apply copy_files_none
          rw [ensure_dir_read]
          exact hkv
      simp only [setup_kernel, mk0_opsys, kernelDestEfi_eq] at hok
      rw [hstep] at hok
      simp at hok
  | some ck =>
      have hstep : (if arch = "arm64" || arch = "aarch64"
          then gunzip_files gz (ensure_dir (fs, tr)
            (Installer.mk0 o d).os_folder false) o.kernel_path
            (kernelDestEfi o d) false
          else copy_files (ensure_dir (fs, tr)
            (Installer.mk0 o d).os_folder false) o.kernel_path
            (kernelDestEfi o d) false)
          = .ok (stWrite (ensure_dir (fs, tr) (Installer.mk0 o d).os_folder
              false) (kernelDestEfi o d) ck) := by
        by_cases harm : (arch = "arm64" || arch = "aarch64") = true
        · rw [if_pos harm] at hkv ⊢
          apply gunzip_files_some _ hkd'
          rw [ensure_dir_read]
          exact hkv
        · rw [if_neg harm] at hkv ⊢
          apply copy_files_some _ hkd'
          rw [ensure_dir_read]
          exact hkv
      cases hiv : fs.read o.initrd_path with
      | none =>
          exfalso
          have hcpn : copy_files (stWrite (ensure_dir (fs, tr)
              (Installer.mk0 o d).os_folder false) (kernelDestEfi o d) ck)
              o.initrd_path (initrdDestPath o d) false = .error () := by
            apply copy_files_none
            rw [stWrite_read, if_neg hip, ensure_dir_read]
            exact hiv
          simp only [setup_kernel, mk0_opsys, kernelDestEfi_eq,
            initrdDestPath_eq] at hok
          rw [hstep] at hok
          dsimp only at hok
          rw [hcpn] at hok
          simp at hok
      | some ci =>
          have hcp : copy_files (stWrite (ensure_dir (fs, tr)
              (Installer.mk0 o d).os_folder false) (kernelDestEfi o d) ck)
              o.initrd_path (initrdDestPath o d) false
              = .ok (stWrite (stWrite (ensure_dir (fs, tr)
                  (Installer.mk0 o d).os_folder false) (kernelDestEfi o d) ck)
                  (initrdDestPath o d) ci) := by
            apply copy_files_some
            · rw [stWrite_read, if_neg hip, ensure_dir_read]
              exact hiv
            · rw [stWrite_dirExists,
                ensure_dir_dirExists_ne _ _ _ (idest_ne_osfolder wf)]
              exact hid
          have hpres : ∀ (q : String), q ≠ entryCurrentPath o d →
              q ≠ loaderConfPath o d →
              (setup_kernel gz arch (Installer.mk0 o d) (fs, tr) kernel_opts
                sl ow false).1.1.read q
                = (stWrite (stWrite (ensure_dir (fs, tr)
                    (Installer.mk0 o d).os_folder false) (kernelDestEfi o d)
                    ck) (initrdDestPath o d) ci).1.read q := by
            intro q hqe hqlc
            simp only [setup_kernel, mk0_opsys, kernelDestEfi_eq,
              initrdDestPath_eq, loaderConfPath_eq]
            rw [hstep]
            dsimp only
            rw [hcp]
            dsimp only
            cases hsl : sl with
            | false => rw [if_neg Bool.false_ne_true]
            | true =>
                rw [if_pos rfl, if_neg Bool.false_ne_true]
                by_cases hcond : (!ow && !((stWrite (stWrite (ensure_dir
                    (fs, tr) (Installer.mk0 o d).os_folder false)
                    (kernelDestEfi o d) ck) (initrdDestPath o d)
                    ci).1.pathExists (loaderConfPath o d))) = true
                · rw [if_pos hcond, if_pos rfl,
                    make_loader_entry_read_ne _ _ _ _ _ _ hqe,
                    ensure_dir_read, stWrite_read, if_neg hqlc,
                    ensure_dir_read]
                · rw [if_neg hcond]
                  by_cases how : ow = true
                  · rw [if_pos how, make_loader_entry_read_ne _ _ _ _ _ _ hqe,
                      ensure_dir_read, stWrite_read, if_neg hqlc,
                      ensure_dir_read]
                  · rw [if_neg how, make_loader_entry_read_ne _ _ _ _ _ _ hqe,
                      ensure_dir_read]
          constructor
          · rw [hpres _ hke hklc, stWrite_read, if_neg hkiP, stWrite_read,
              if_pos rfl]
          · rw [hpres _ hie hilc, stWrite_read, if_pos rfl]

/-- Witness: on the example target (x86_64), a successful setup_kernel run
leaves the deployed kernel and initrd byte-identical to their sources. -/
theorem setup_kernel_deploys_exact_bytes_witness :
    (setup_kernel gzEx "x86_64" (Installer.mk0 oEx dEx) (fsEx, []) "opts"
        true false false).1.1.read (kernelDestEfi oEx dEx) = some ['K', '1']
    ∧ (setup_kernel gzEx "x86_64" (Installer.mk0 oEx dEx) (fsEx, []) "opts"
        true false false).1.1.read (initrdDestPath oEx dEx)
      = some ['I', '1'] := by
  have h := setup_kernel_deploys_exact_bytes gzEx "x86_64" oEx dEx wfEx fsEx
    [] "opts" true false (by decide) (by decide) (by decide) (by decide)
    (by rfl)
  constructor
  · rw [h.1]
    decide
  · rw [h.2]
    decide

theorem count_append_single (l : List Event) (e a : Event) :
    (l ++ [e]).count a = l.count a + (if e = a then 1 else 0) := by
  rw [List.count_append]
  congr 1
  by_cases h : e = a
  · subst h
    simp
  · rw [if_neg h]
    refine List.count_eq_zero.mpr ?_
    intro hm
    have ha : a = e := by simpa using hm
    exact h ha.symm

theorem stWrite_count_fw (st : St) (q : String) (c : List Char) (p : String) :
    (stWrite st q c).2.count (Event.fileWrite p)
      = st.2.count (Event.fileWrite p) + (if q = p then 1 else 0) := by
  unfold stWrite
  rw [count_append_single]
  congr 1
  by_cases h : q = p
  · subst h
    simp
  · rw [if_neg (by simp [h]), if_neg h]

theorem ensure_dir_count_fw (st : St) (dir : String) (sim : Bool)
    (p : String) :
    (ensure_dir st dir sim).2.count (Event.fileWrite p)
      = st.2.count (Event.fileWrite p) := by
  unfold ensure_dir
  split
  · rfl
  · split
    · rfl
    · rw [count_append_single, if_neg (by simp)]
      exact Nat.add_zero _

theorem make_loader_entry_count_fw (st : St) (t l ir op f : String)
    (p : String) :
    (make_loader_entry st t l ir op f).2.count (Event.fileWrite p)
      = st.2.count (Event.fileWrite p) + (if f ++ ".conf" = p then 1 else 0) := by
  unfold make_loader_entry
  rw [stWrite_count_fw]

theorem copy_files_sim (st : St) (src dest : String) :
    copy_files st src dest true = .ok st := rfl

theorem mk0_old_kernel (o : Opsys) (d : Drive) :
    (Installer.mk0 o d).old_kernel = true := rfl

/-- C7: for every run of backup_old on a freshly constructed installer where
the resolved previous and current kernel paths differ, the call returns
without raising, the internal old-kernel-available flag afterwards holds
exactly when both the previous-kernel copy and the previous-initrd copy
succeeded, and the 'previous' loader entry file is written (exactly once)
if and only if setup_loader was requested and both copies succeeded; a copy
failure only degrades the flag. -/
theorem backup_old_entry_iff (resolve : String → String) (o : Opsys)
    (d : Drive) (wf : WF o d) (fs : FS) (tr : List Event)
    (kernel_opts : String) (sl sim : Bool)
    (hres : resolve o.old_kernel_path ≠ resolve o.kernel_path)
    (hdk : fs.dirExists (oldKernelDestPath o d) = false)
    (hdi : fs.dirExists (oldInitrdDestPath o d) = false)
    (hsrc : o.old_initrd_path ≠ oldKernelDestPath o d) :
    ∃ i' st',
      backup_old resolve (Installer.mk0 o d) (fs, tr) kernel_opts sl sim
        = .ok (i', st')
      ∧ i'.old_kernel = ((sim || (fs.read o.old_kernel_path).isSome)
          && (sim || (fs.read o.old_initrd_path).isSome))
      ∧ st'.2.count (Event.fileWrite (entryOldkernPath o d))
          = tr.count (Event.fileWrite (entryOldkernPath o d))
            + (if sl && (sim || (fs.read o.old_kernel_path).isSome)
                && (sim || (fs.read o.old_initrd_path).isSome)
               then 1 else 0) := by
  have hek := entryOldkern_ne_oldKernelDest wf
  have hei := entryOldkern_ne_oldInitrdDest wf
  have hdk' : ((fs, tr) : St).1.dirExists (oldKernelDestPath o d) = false := hdk
  have hdi' : ((fs, tr) : St).1.dirExists (oldInitrdDestPath o d) = false := hdi
  simp only [backup_old, mk0_opsys, mk0_drive, oldKernelDestPath_eq,
    oldInitrdDestPath_eq]
  rw [if_neg hres]
  cases hsim : sim with
  | true =>
      rw [copy_files_sim]
      dsimp only
      rw [copy_files_sim]
      dsimp only
      simp only [mk0_old_kernel, Bool.and_true]
      cases hsl : sl with
      | true =>
          rw [if_pos rfl]
          refine ⟨_, _, rfl, by simp [mk0_old_kernel], ?_⟩
          rw [make_loader_entry_count_fw, ensure_dir_count_fw]
          simp only [mk0_opsys, entryOldkernPath_eq]
          simp
      | false =>
          rw [if_neg Bool.false_ne_true]
          exact ⟨_, _, rfl, by simp [mk0_old_kernel], by simp⟩
  | false =>
      cases hko : fs.read o.old_kernel_path with
      | some ck =>
          have hko' : ((fs, tr) : St).1.read o.old_kernel_path = some ck := hko
          rw [copy_files_some hko' hdk']
          dsimp only
          simp only [mk0_opsys, mk0_drive, oldInitrdDestPath_eq]
          cases hio : fs.read o.old_initrd_path with
          | some ci =>
              have hio' : (stWrite (fs, tr) (oldKernelDestPath o d)
                  ck).1.read o.old_initrd_path = some ci := by
                rw [stWrite_read, if_neg hsrc]
                exact hio
              have hdi2 : (stWrite (fs, tr) (oldKernelDestPath o d)
                  ck).1.dirExists (oldInitrdDestPath o d) = false := by
                rw [stWrite_dirExists]
                exact hdi
              rw [copy_files_some hio' hdi2]
              dsimp only
              simp only [mk0_old_kernel, Bool.and_true]
              cases hsl : sl with
              | true =>
                  rw [if_pos rfl]
                  refine ⟨_, _, rfl, by simp [mk0_old_kernel], ?_⟩
                  rw [make_loader_entry_count_fw, ensure_dir_count_fw,
                    stWrite_count_fw, if_neg (Ne.symm hei),
                    stWrite_count_fw, if_neg (Ne.symm hek)]
                  simp only [mk0_opsys, entryOldkernPath_eq]
                  simp
              | false =>
                  rw [if_neg Bool.false_ne_true]
                  refine ⟨_, _, rfl, by simp [mk0_old_kernel], ?_⟩
                  rw [stWrite_count_fw, if_neg (Ne.symm hei),
                    stWrite_count_fw, if_neg (Ne.symm hek)]
                  simp
          | none =>
              have hion : (stWrite (fs, tr) (oldKernelDestPath o d)
                  ck).1.read o.old_initrd_path = none := by
                rw [stWrite_read, if_neg hsrc]
                exact hio
              rw [copy_files_none hion]
              dsimp only
              rw [Bool.and_false, if_neg Bool.false_ne_true]
              refine ⟨_, _, rfl, by simp, ?_⟩
              rw [stWrite_count_fw, if_neg (Ne.symm hek)]
              simp
      | none =>
          have hko' : ((fs, tr) : St).1.read o.old_kernel_path = none := hko
          rw [copy_files_none hko']
          dsimp only
          simp only [mk0_opsys, mk0_drive, oldInitrdDestPath_eq]
          cases hio : fs.read o.old_initrd_path with
          | some ci =>
              have hio' : ((fs, tr) : St).1.read o.old_initrd_path
                  = some ci := hio
              rw [copy_files_some hio' hdi']
              dsimp only
              rw [Bool.and_false, if_neg Bool.false_ne_true]
              refine ⟨_, _, rfl, by simp, ?_⟩
              rw [stWrite_count_fw, if_neg (Ne.symm hei)]
              simp
          | none =>
              have hio' : ((fs, tr) : St).1.read o.old_initrd_path
                  = none := hio
              rw [copy_files_none hio']
              dsimp only
              rw [Bool.and_false, if_neg Bool.false_ne_true]
              exact ⟨_, _, rfl, by simp, by simp⟩

/-- Witness: C7 on the example target with both previous-generation sources
present, setup_loader requested and simulate off: the run returns ok, the
flag stays true, and exactly one previous entry file is written. -/
theorem backup_old_entry_iff_witness :
    ∃ i' st',
      backup_old (fun s => s) (Installer.mk0 oEx dEx) (fsEx, []) "opts" true
        false = .ok (i', st')
      ∧ i'.old_kernel = ((false || (fsEx.read oEx.old_kernel_path).isSome)
          && (false || (fsEx.read oEx.old_initrd_path).isSome))
      ∧ st'.2.count (Event.fileWrite (entryOldkernPath oEx dEx))
          = ([] : List Event).count (Event.fileWrite (entryOldkernPath oEx dEx))
            + (if true && (false || (fsEx.read oEx.old_kernel_path).isSome)
                && (false || (fsEx.read oEx.old_initrd_path).isSome)
               then 1 else 0) :=
  backup_old_entry_iff (fun s => s) oEx dEx wfEx fsEx [] "opts" true false
    (by decide) (by decide) (by decide) (by decide)

theorem str_ne_of_lastC {a b : String} {c₁ c₂ : Char}
    (ha : lastC a.data = some c₁) (hb : lastC b.data = some c₂)
    (h : c₁ ≠ c₂) : a ≠ b := by
  apply str_ne_of_data
  apply ne_of_lastC
  rw [ha, hb]
  simp [h]

theorem loaderConf_lastC (o : Opsys) (d : Drive) :
    lastC (loaderConfPath o d).data = some 'f' := by
  unfold loaderConfPath
  rw [lastC_str_append_concrete (by decide)]
  decide

/-- C5: for every non-simulated run of setup_kernel or setup_unified_kernel
with overwrite=false and an existing loader.conf, the shared loader.conf
pointer file is left unchanged (it is rewritten only when the caller passed
overwrite=true or the file does not yet exist). -/
theorem loader_conf_overwrite_policy
    (gz : List Char → Option (List Char)) (arch : String)
    (objcopyOut sbsignOut : List Char) (objcopyOk sbsignOk : Bool)
    (o : Opsys) (d : Drive) (wf : WF o d) (fs : FS) (tr : List Event)
    (kernel_opts : String) (sl old : Bool)
    (hvex : (fs.read (loaderConfPath o d)).isSome = true) :
    (setup_kernel gz arch (Installer.mk0 o d) (fs, tr) kernel_opts sl false
        false).1.1.read (loaderConfPath o d) = fs.read (loaderConfPath o d)
    ∧ (setup_unified_kernel objcopyOut sbsignOut objcopyOk sbsignOk
        (Installer.mk0 o d) (fs, tr) kernel_opts old false
        false).1.1.read (loaderConfPath o d)
      = fs.read (loaderConfPath o d) := by
  constructor
  · simp only [setup_kernel, mk0_opsys, kernelDestEfi_eq, initrdDestPath_eq,
      loaderConfPath_eq]
    cases hk : (if arch = "arm64" || arch = "aarch64"
        then gunzip_files gz (ensure_dir (fs, tr)
          (Installer.mk0 o d).os_folder false) o.kernel_path
          (kernelDestEfi o d) false
        else copy_files (ensure_dir (fs, tr) (Installer.mk0 o d).os_folder
          false) o.kernel_path (kernelDestEfi o d) false) with
    | error e =>
        dsimp only
        rw [ensure_dir_read]
    | ok st1 =>
        dsimp only
        have hp1 : st1.1.read (loaderConfPath o d)
            = fs.read (loaderConfPath o d) := by
          by_cases harm : (arch = "arm64" || arch = "aarch64") = true
          · rw [if_pos harm] at hk
            rw [gunzip_files_read_pres hk (Ne.symm (kdest_ne_lc wf)),
              ensure_dir_read]
          · rw [if_neg harm] at hk
            rw [copy_files_read_pres hk (lc_ne_kdest_fam wf), ensure_dir_read]
        cases hi : copy_files st1 o.initrd_path (initrdDestPath o d) false with
        | error e =>
            dsimp only
            exact hp1
        | ok st2 =>
            dsimp only
            have hp2 : st2.1.read (loaderConfPath o d)
                = fs.read (loaderConfPath o d) := by
              rw [copy_files_read_pres hi (lc_ne_idest_fam wf)]
              exact hp1
            cases hsl : sl with
            | false =>
                rw [if_neg Bool.false_ne_true]
                exact hp2
            | true =>
                rw [if_pos rfl, if_neg Bool.false_ne_true]
                have hpe : st2.1.pathExists (loaderConfPath o d) = true :=
                  pathExists_of_read (by rw [hp2]; exact hvex)
                rw [if_neg (by simp [hpe]),
                  make_loader_entry_read_ne _ _ _ _ _ _
                    (lc_ne_entryCurrent wf), ensure_dir_read]
                exact hp2
  · simp only [setup_unified_kernel, mk0_opsys, mk0_drive, loaderConfPath_eq,
      if_neg Bool.false_ne_true]
    have hlcf := loaderConf_lastC o d
    have hcmd_last : lastC (pathJoin (pathJoin "/tmp/kernelstub"
        (if old = true then "previous" else "current")) "cmdline").data
        = some 'e' := by
      cases old <;> decide
    have hne_cmd := str_ne_of_lastC hlcf hcmd_last (by decide)
    have huns_last : lastC (pathJoin (pathJoin "/tmp/kernelstub"
        (if old = true then "previous" else "current"))
        "linux-unsigned.efi").data = some 'i' := by
      cases old <;> decide
    have hne_uns := str_ne_of_lastC hlcf huns_last (by decide)
    have hsgn_last : lastC (pathJoin (pathJoin "/tmp/kernelstub"
        (if old = true then "previous" else "current")) "signed.efi").data
        = some 'i' := by
      cases old <;> decide
    have hne_sgn := str_ne_of_lastC hlcf hsgn_last (by decide)
    have hken_nil : (o.name ++ "-"
        ++ (if old = true then "previous" else "current") ++ "-"
        ++ d.root_uuid ++ ".efi").data ≠ [] := by
      rw [data_append]
      simp
    have hpd_last : lastC (pathJoin (pathJoin (Installer.mk0 o d).work_dir
        "Linux") (o.name ++ "-"
          ++ (if old = true then "previous" else "current") ++ "-"
          ++ d.root_uuid ++ ".efi")).data = some 'i' := by
      rw [lastC_pathJoin hken_nil, lastC_str_append_concrete (by decide)]
      decide
    have hne_pd : loaderConfPath o d
        ≠ pathJoin (pathJoin (Installer.mk0 o d).work_dir "Linux")
          (o.name ++ "-" ++ (if old = true then "previous" else "current")
            ++ "-" ++ d.root_uuid ++ ".efi") :=
      str_ne_of_lastC hlcf hpd_last (by decide)
    have hpdb_s_last : lastC (pathJoin (pathJoin (pathJoin
        (Installer.mk0 o d).work_dir "Linux")
          (o.name ++ "-" ++ (if old = true then "previous" else "current")
            ++ "-" ++ d.root_uuid ++ ".efi"))
        (basename (pathJoin (pathJoin "/tmp/kernelstub"
          (if old = true then "previous" else "current"))
          "signed.efi"))).data = some 'i' := by
      rw [lastC_pathJoin (by cases old <;> decide)]
      cases old <;> decide
    have hne_pdb_s := str_ne_of_lastC hlcf hpdb_s_last (by decide)
    have hpdb_u_last : lastC (pathJoin (pathJoin (pathJoin
        (Installer.mk0 o d).work_dir "Linux")
          (o.name ++ "-" ++ (if old = true then "previous" else "current")
            ++ "-" ++ d.root_uuid ++ ".efi"))
        (basename (pathJoin (pathJoin "/tmp/kernelstub"
          (if old = true then "previous" else "current"))
          "linux-unsigned.efi"))).data = some 'i' := by
      rw [lastC_pathJoin (by cases old <;> decide)]
      cases old <;> decide
    have hne_pdb_u := str_ne_of_lastC hlcf hpdb_u_last (by decide)
    split
    next e heq =>
      rw [stWrite_read, if_neg hne_cmd, ensure_dir_read]
    next st2 heq =>
      have hp2 : st2.1.read (loaderConfPath o d)
          = fs.read (loaderConfPath o d) := by
        rw [check_call_read_pres heq hne_uns, stWrite_read, if_neg hne_cmd,
          ensure_dir_read]
      split
      next e heq2 =>
        exact hp2
      next kpath st3 heq2 =>
        split at heq2
        · cases hcc2 : check_call sbsignOk (sbsignCmd "/etc/kernelstub/mok.crt"
              "/etc/kernelstub/mok.key"
              (pathJoin (pathJoin "/tmp/kernelstub"
                (if old = true then "previous" else "current")) "signed.efi")
              (pathJoin (pathJoin "/tmp/kernelstub"
                (if old = true then "previous" else "current"))
                "linux-unsigned.efi"))
              (pathJoin (pathJoin "/tmp/kernelstub"
                (if old = true then "previous" else "current")) "signed.efi")
              sbsignOut st2 with
          | error e2 =>
              rw [hcc2] at heq2
              cases heq2
          | ok st4 =>
              rw [hcc2] at heq2
              cases heq2
              have hp3 : st3.1.read (loaderConfPath o d)
                  = fs.read (loaderConfPath o d) := by
                rw [check_call_read_pres hcc2 hne_sgn]
                exact hp2
              split
              next e heq4 =>
                rw [ensure_dir_read]
                exact hp3
              next st5 heq4 =>
                have hp5 : st5.1.read (loaderConfPath o d)
                    = fs.read (loaderConfPath o d) := by
                  rw [copy_files_read_pres2 heq4 hne_pd hne_pdb_s,
                    ensure_dir_read]
                  exact hp3
                have hpe5 : st5.1.pathExists (loaderConfPath o d) = true :=
                  pathExists_of_read (by rw [hp5]; exact hvex)
                have hc1 : (!false && !false) = true := by decide
                rw [if_pos hc1]
                have hc2 : ¬ ((!(st5.1.pathExists (loaderConfPath o d)))
                    = true) := by simp [hpe5]
                rw [if_neg hc2]
                have hc3 : ¬ ((false && !old && !false) = true) := by simp
                rw [if_neg hc3]
                exact hp5
        · cases heq2
          split
          next e heq4 =>
            rw [ensure_dir_read]
            exact hp2
          next st5 heq4 =>
            have hp5 : st5.1.read (loaderConfPath o d)
                = fs.read (loaderConfPath o d) := by
              rw [copy_files_read_pres2 heq4 hne_pd hne_pdb_u,
                ensure_dir_read]
              exact hp2
            have hpe5 : st5.1.pathExists (loaderConfPath o d) = true :=
              pathExists_of_read (by rw [hp5]; exact hvex)
            have hc1 : (!false && !false) = true := by decide
            rw [if_pos hc1]
            have hc2 : ¬ ((!(st5.1.pathExists (loaderConfPath o d)))
                = true) := by simp [hpe5]
            rw [if_neg hc2]
            have hc3 : ¬ ((false && !old && !false) = true) := by simp
            rw [if_neg hc3]
            exact hp5

theorem loader_conf_overwrite_policy_witness :
    (fsEx.read (loaderConfPath oEx dEx)).isSome = true
    ∧ ((setup_kernel gzEx "x86_64" (Installer.mk0 oEx dEx) (fsEx, []) "opts"
          true false false).1.1.read (loaderConfPath oEx dEx)
        = fsEx.read (loaderConfPath oEx dEx)
      ∧ (setup_unified_kernel [] [] true true (Installer.mk0 oEx dEx)
          (fsEx, []) "opts" false false false).1.1.read (loaderConfPath oEx dEx)
        = fsEx.read (loaderConfPath oEx dEx)) :=
  ⟨by decide,
   loader_conf_overwrite_policy gzEx "x86_64" [] [] true true oEx dEx wfEx
     fsEx [] "opts" true false (by decide)⟩

theorem publishDestPath_eq (o : Opsys) (d : Drive) (old : Bool) :
    pathJoin (pathJoin (Installer.mk0 o d).work_dir "Linux")
      (o.name ++ "-" ++ (if old = true then "previous" else "current") ++ "-"
        ++ d.root_uuid ++ ".efi") = publishDestPath o d old := rfl

theorem check_call_true (cmd : List String) (out : String)
    (content : List Char) (st : St) :
    check_call true cmd out content st
      = .ok (st.1.write out content,
             st.2 ++ [Event.toolRun cmd, Event.fileWrite out]) := rfl

theorem FS.pathExists_write_ne (fs : FS) (p : String) (c : List Char)
    {q : String} (h : q ≠ p) :
    (fs.write p c).pathExists q = fs.pathExists q := by
  unfold FS.pathExists
  rw [FS.read_write, if_neg h, FS.dirExists_write]

theorem publishDest_lastC (o : Opsys) (d : Drive) (old : Bool) :
    lastC (publishDestPath o d old).data = some 'i' := by
  have hnil : (o.name ++ "-" ++ (if old = true then "previous" else "current")
      ++ "-" ++ d.root_uuid ++ ".efi").data ≠ [] := by
    rw [data_append]
    simp
  unfold publishDestPath
  rw [lastC_pathJoin hnil, lastC_str_append_concrete (by decide)]
  decide

theorem tmpDirPath_eq (old : Bool) :
    pathJoin "/tmp/kernelstub" (if old = true then "previous" else "current")
      = tmpDirPath old := rfl

theorem cmdlinePath_eq (old : Bool) :
    pathJoin (tmpDirPath old) "cmdline" = cmdlinePath old := rfl

theorem unsignedPath_eq (old : Bool) :
    pathJoin (tmpDirPath old) "linux-unsigned.efi" = unsignedPath old := rfl

theorem signedPath_eq (old : Bool) :
    pathJoin (tmpDirPath old) "signed.efi" = signedPath old := rfl

theorem check_call_read_out {cmd : List String} {out : String}
    {content : List Char} {st st' : St}
    (h : check_call true cmd out content st = .ok st') :
    st'.1.read out = some content := by
  rw [check_call_true] at h
  cases h
  rw [FS.read_write, if_pos rfl]

theorem check_call_dirExists {ok : Bool} {cmd : List String} {out : String}
    {content : List Char} {st st' : St}
    (h : check_call ok cmd out content st = .ok st') (q : String) :
    st'.1.dirExists q = st.1.dirExists q := by
  unfold check_call at h
  split at h
  · cases h
    rw [FS.dirExists_write]
  · cases h

theorem copy_files_dest_read {st st' : St} {src dest : String}
    {c : List Char} (h : copy_files st src dest false = .ok st')
    (hr : st.1.read src = some c) (hd : st.1.dirExists dest = false) :
    st'.1.read dest = some c := by
  rw [copy_files_some hr hd] at h
  cases h
  rw [stWrite_read, if_pos rfl]

/-- The loader.conf overwrite decision at the tail of setup_unified_kernel
never touches a path other than loader.conf. -/
theorem overwrite_stage_read (o : Opsys) (d : Drive) (st4 : St)
    (overwrite old : Bool) (cnt : List Char) {q : String}
    (hq : q ≠ loaderConfPath o d) :
    (if ((if (!overwrite && !false) = true then
            (if (!(st4.1.pathExists (loaderConfPath o d))) = true then true
             else overwrite)
          else overwrite) && !old && !false) = true then
       (stWrite (ensure_dir st4 (Installer.mk0 o d).loader_dir false)
          (loaderConfPath o d) cnt, (Except.ok () : Except Unit Unit))
     else (st4, Except.ok ())).1.1.read q = st4.1.read q := by
  by_cases hfin : ((if (!overwrite && !false) = true then
      (if (!(st4.1.pathExists (loaderConfPath o d))) = true then true
       else overwrite)
      else overwrite) && !old && !false) = true
  · rw [if_pos hfin]
    rw [stWrite_read, if_neg hq, ensure_dir_read]
  · rw [if_neg hfin]

/-- C8: for every run of setup_unified_kernel that is not simulated and whose
external merge and sign tools succeed, the artifact published at
publishDestPath — the path EFI/Linux/<osName>-<generationTag>-<rootUUID>.efi
under the ESP — holds the signed image exactly when the signing certificate
/etc/kernelstub/mok.crt and key /etc/kernelstub/mok.key both exist, and the
unsigned merged image otherwise, never a partial state. -/
theorem setup_unified_kernel_sign_iff
    (objcopyOut sbsignOut : List Char)
    (o : Opsys) (d : Drive) (fs : FS) (tr : List Event)
    (kernel_opts : String) (old overwrite : Bool)
    (hnd : fs.dirExists (publishDestPath o d old) = false) :
    (setup_unified_kernel objcopyOut sbsignOut true true (Installer.mk0 o d)
        (fs, tr) kernel_opts old overwrite false).1.1.read
        (publishDestPath o d old)
      = some (if fs.pathExists "/etc/kernelstub/mok.crt"
                 && fs.pathExists "/etc/kernelstub/mok.key"
              then sbsignOut else objcopyOut) := by
  have hpub := publishDest_lastC o d old
  have hc1 : ("/etc/kernelstub/mok.crt" : String) ≠ unsignedPath old := by
    cases old <;> decide
  have hc2 : ("/etc/kernelstub/mok.crt" : String) ≠ cmdlinePath old := by
    cases old <;> decide
  have hc3 : ("/etc/kernelstub/mok.crt" : String) ≠ tmpDirPath old := by
    cases old <;> decide
  have hk1 : ("/etc/kernelstub/mok.key" : String) ≠ unsignedPath old := by
    cases old <;> decide
  have hk2 : ("/etc/kernelstub/mok.key" : String) ≠ cmdlinePath old := by
    cases old <;> decide
  have hk3 : ("/etc/kernelstub/mok.key" : String) ≠ tmpDirPath old := by
    cases old <;> decide
  have hdd_last : lastC (pathJoin (Installer.mk0 o d).work_dir "Linux").data
      = some 'x' := by
    rw [lastC_pathJoin (by decide)]
    decide
  have hpub_dd : publishDestPath o d old
      ≠ pathJoin (Installer.mk0 o d).work_dir "Linux" :=
    str_ne_of_lastC hpub hdd_last (by decide)
  have htmp_last : lastC (tmpDirPath old).data
      = some (if old = true then 's' else 't') := by
    cases old <;> decide
  have hpub_tmp : publishDestPath o d old ≠ tmpDirPath old :=
    str_ne_of_lastC hpub htmp_last (by cases old <;> decide)
  have hpub_lc : publishDestPath o d old ≠ loaderConfPath o d :=
    str_ne_of_lastC hpub (loaderConf_lastC o d) (by decide)
  simp only [setup_unified_kernel, mk0_opsys, mk0_drive, tmpDirPath_eq,
    cmdlinePath_eq, unsignedPath_eq, signedPath_eq, publishDestPath_eq,
    loaderConfPath_eq, if_neg Bool.false_ne_true]
  by_cases hcert : (fs.pathExists "/etc/kernelstub/mok.crt"
      && fs.pathExists "/etc/kernelstub/mok.key") = true
  · simp only [if_pos hcert]
    split
    next e heq =>
      rw [check_call_true] at heq
      cases heq
    next st1 heq =>
      have hun : st1.1.read (unsignedPath old) = some objcopyOut :=
        check_call_read_out heq
      have hpe_crt : st1.1.pathExists "/etc/kernelstub/mok.crt"
          = fs.pathExists "/etc/kernelstub/mok.crt" := by
        rw [check_call_pathExists_ne heq hc1, stWrite_pathExists_ne _ _ _ hc2,
          ensure_dir_pathExists_ne _ _ _ hc3]
      have hpe_key : st1.1.pathExists "/etc/kernelstub/mok.key"
          = fs.pathExists "/etc/kernelstub/mok.key" := by
        rw [check_call_pathExists_ne heq hk1, stWrite_pathExists_ne _ _ _ hk2,
          ensure_dir_pathExists_ne _ _ _ hk3]
      have hd1 : st1.1.dirExists (publishDestPath o d old) = false := by
        rw [check_call_dirExists heq, stWrite_dirExists,
          ensure_dir_dirExists_ne _ _ _ hpub_tmp]
        exact hnd
      rw [hpe_crt, hpe_key, if_pos hcert]
      split
      next e heq2 =>
        rw [check_call_true] at heq2
        dsimp only at heq2
        cases heq2
      next kpath st2 heq2 =>
        rw [check_call_true] at heq2
        dsimp only at heq2
        injection heq2 with h12
        injection h12 with hk hs
        have hr2 : st2.1.read (signedPath old) = some sbsignOut := by
          rw [← hs, FS.read_write, if_pos rfl]
        have hd2 : st2.1.dirExists (publishDestPath o d old) = false := by
          rw [← hs, FS.dirExists_write]
          exact hd1
        rw [← hk]
        have hr3 : (ensure_dir st2 (pathJoin (Installer.mk0 o d).work_dir
            "Linux") false).1.read (signedPath old) = some sbsignOut := by
          rw [ensure_dir_read]
          exact hr2
        have hd3 : (ensure_dir st2 (pathJoin (Installer.mk0 o d).work_dir
            "Linux") false).1.dirExists (publishDestPath o d old) = false := by
          rw [ensure_dir_dirExists_ne _ _ _ hpub_dd]
          exact hd2
        rw [copy_files_some hr3 hd3]
        dsimp only
        rw [overwrite_stage_read o d _ overwrite old _ hpub_lc,
          stWrite_read, if_pos rfl]
  · simp only [if_neg hcert]
    split
    next e heq =>
      rw [check_call_true] at heq
      cases heq
    next st1 heq =>
      have hun : st1.1.read (unsignedPath old) = some objcopyOut :=
        check_call_read_out heq
      have hpe_crt : st1.1.pathExists "/etc/kernelstub/mok.crt"
          = fs.pathExists "/etc/kernelstub/mok.crt" := by
        rw [check_call_pathExists_ne heq hc1, stWrite_pathExists_ne _ _ _ hc2,
          ensure_dir_pathExists_ne _ _ _ hc3]
      have hpe_key : st1.1.pathExists "/etc/kernelstub/mok.key"
          = fs.pathExists "/etc/kernelstub/mok.key" := by
        rw [check_call_pathExists_ne heq hk1, stWrite_pathExists_ne _ _ _ hk2,
          ensure_dir_pathExists_ne _ _ _ hk3]
      have hd1 : st1.1.dirExists (publishDestPath o d old) = false := by
        rw [check_call_dirExists heq, stWrite_dirExists,
          ensure_dir_dirExists_ne _ _ _ hpub_tmp]
        exact hnd
      rw [hpe_crt, hpe_key, if_neg hcert]
      dsimp only
      have hr3 : (ensure_dir st1 (pathJoin (Installer.mk0 o d).work_dir
          "Linux") false).1.read (unsignedPath old) = some objcopyOut := by
        rw [ensure_dir_read]
        exact hun
      have hd3 : (ensure_dir st1 (pathJoin (Installer.mk0 o d).work_dir
          "Linux") false).1.dirExists (publishDestPath o d old) = false := by
        rw [ensure_dir_dirExists_ne _ _ _ hpub_dd]
        exact hd1
      rw [copy_files_some hr3 hd3]
      dsimp only
      rw [overwrite_stage_read o d _ overwrite old _ hpub_lc,
        stWrite_read, if_pos rfl]

theorem setup_unified_kernel_sign_iff_witness :
    fsEx.dirExists (publishDestPath oEx dEx false) = false
    ∧ (setup_unified_kernel ['U'] ['S'] true true (Installer.mk0 oEx dEx)
        (fsEx, []) "opts" false false false).1.1.read
        (publishDestPath oEx dEx false)
      = some (if fsEx.pathExists "/etc/kernelstub/mok.crt"
                 && fsEx.pathExists "/etc/kernelstub/mok.key"
              then ['S'] else ['U']) :=
  ⟨by decide,
   setup_unified_kernel_sign_iff ['U'] ['S'] oEx dEx fsEx [] "opts"
     false false (by decide)⟩

theorem oldKernelDest_lastC (o : Opsys) (d : Drive) :
    lastC (oldKernelDestPath o d).data = some 'i' := by
  have hnil : (o.kernel_name ++ "-previous.efi").data ≠ [] := by
    rw [data_append]
    simp
  unfold oldKernelDestPath
  rw [lastC_pathJoin hnil, lastC_str_append_concrete (by decide)]
  decide

theorem oldInitrdDest_lastC (o : Opsys) (d : Drive) :
    lastC (oldInitrdDestPath o d).data = some 's' := by
  have hnil : (o.initrd_name ++ "-previous").data ≠ [] := by
    rw [data_append]
    simp
  unfold oldInitrdDestPath
  rw [lastC_pathJoin hnil, lastC_str_append_concrete (by decide)]
  decide

theorem entryOldkern_lastC (o : Opsys) (d : Drive) :
    lastC (entryOldkernPath o d).data = some 'f' := by
  unfold entryOldkernPath
  rw [lastC_str_append_concrete (by decide)]
  decide

theorem stWrite_count_cs (st : St) (q : String) (c : List Char) :
    (stWrite st q c).2.count Event.configSave
      = st.2.count Event.configSave := by
  unfold stWrite
  rw [count_append_single, if_neg (by simp)]
  exact Nat.add_zero _

theorem ensure_dir_count_cs (st : St) (dir : String) (sim : Bool) :
    (ensure_dir st dir sim).2.count Event.configSave
      = st.2.count Event.configSave := by
  unfold ensure_dir
  split
  · rfl
  · split
    · rfl
    · rw [count_append_single, if_neg (by simp)]
      exact Nat.add_zero _

theorem make_loader_entry_count_cs (st : St) (t l ir op f : String) :
    (make_loader_entry st t l ir op f).2.count Event.configSave
      = st.2.count Event.configSave := by
  unfold make_loader_entry
  rw [stWrite_count_cs]

/-- backup_old never raises when the resolved paths differ or coincide, and
(for any outcome) it neither touches a path distinct from its three
destinations nor records a configuration save. -/
theorem backup_old_preserves (resolve : String → String) (o : Opsys)
    (d : Drive) (fs : FS) (tr : List Event) (kernel_opts : String) (sl : Bool)
    (hdk : fs.dirExists (oldKernelDestPath o d) = false)
    (hdi : fs.dirExists (oldInitrdDestPath o d) = false)
    (hsrc : o.old_initrd_path ≠ oldKernelDestPath o d)
    {q : String} (hq1 : q ≠ oldKernelDestPath o d)
    (hq2 : q ≠ oldInitrdDestPath o d) (hq3 : q ≠ entryOldkernPath o d)
    {i' : Installer} {st' : St}
    (h : backup_old resolve (Installer.mk0 o d) (fs, tr) kernel_opts sl false
        = .ok (i', st')) :
    st'.1.read q = fs.read q
    ∧ st'.2.count Event.configSave = tr.count Event.configSave := by
  have hdk' : ((fs, tr) : St).1.dirExists (oldKernelDestPath o d) = false := hdk
  have hdi' : ((fs, tr) : St).1.dirExists (oldInitrdDestPath o d) = false := hdi
  simp only [backup_old, mk0_opsys, mk0_drive, oldKernelDestPath_eq,
    oldInitrdDestPath_eq] at h
  by_cases hres : resolve o.old_kernel_path = resolve o.kernel_path
  · rw [if_pos hres] at h
    injection h with hp
    injection hp with hi hst
    rw [← hst]
    exact ⟨rfl, rfl⟩
  · rw [if_neg hres] at h
    cases hko : fs.read o.old_kernel_path with
    | some ck =>
        have hko' : ((fs, tr) : St).1.read o.old_kernel_path = some ck := hko
        rw [copy_files_some hko' hdk'] at h
        dsimp only at h
        simp only [mk0_opsys, mk0_drive, oldInitrdDestPath_eq] at h
        cases hio : fs.read o.old_initrd_path with
        | some ci =>
            have hio' : (stWrite (fs, tr) (oldKernelDestPath o d)
                ck).1.read o.old_initrd_path = some ci := by
              rw [stWrite_read, if_neg hsrc]
              exact hio
            have hdi2 : (stWrite (fs, tr) (oldKernelDestPath o d)
                ck).1.dirExists (oldInitrdDestPath o d) = false := by
              rw [stWrite_dirExists]
              exact hdi
            rw [copy_files_some hio' hdi2] at h
            dsimp only at h
            simp only [mk0_old_kernel, Bool.and_true] at h
            cases hsl : sl with
            | true =>
                rw [if_pos hsl] at h
                simp only [mk0_opsys] at h
                injection h with hp
                injection hp with hi hst
                rw [← hst]
                constructor
                · rw [make_loader_entry_read_ne _ _ _ _ _ _ hq3,
                    ensure_dir_read, stWrite_read, if_neg hq2, stWrite_read,
                    if_neg hq1]
                · rw [make_loader_entry_count_cs, ensure_dir_count_cs,
                    stWrite_count_cs, stWrite_count_cs]
            | false =>
                rw [if_neg (by rw [hsl]; exact Bool.false_ne_true)] at h
                injection h with hp
                injection hp with hi hst
                rw [← hst]
                constructor
                · rw [stWrite_read, if_neg hq2, stWrite_read, if_neg hq1]
                · rw [stWrite_count_cs, stWrite_count_cs]
        | none =>
            have hion : (stWrite (fs, tr) (oldKernelDestPath o d)
                ck).1.read o.old_initrd_path = none := by
              rw [stWrite_read, if_neg hsrc]
              exact hio
            rw [copy_files_none hion] at h
            dsimp only at h
            rw [Bool.and_false, if_neg Bool.false_ne_true] at h
            injection h with hp
            injection hp with hi hst
            rw [← hst]
            constructor
            · rw [stWrite_read, if_neg hq1]
            · rw [stWrite_count_cs]
    | none =>
        have hko' : ((fs, tr) : St).1.read o.old_kernel_path = none := hko
        rw [copy_files_none hko'] at h
        dsimp only at h
        simp only [mk0_opsys, mk0_drive, oldInitrdDestPath_eq] at h
        cases hio : fs.read o.old_initrd_path with
        | some ci =>
            have hio' : ((fs, tr) : St).1.read o.old_initrd_path
                = some ci := hio
            rw [copy_files_some hio' hdi'] at h
            dsimp only at h
            rw [Bool.and_false, if_neg Bool.false_ne_true] at h
            injection h with hp
            injection hp with hi hst
            rw [← hst]
            constructor
            · rw [stWrite_read, if_neg hq2]
            · rw [stWrite_count_cs]
        | none =>
            have hio' : ((fs, tr) : St).1.read o.old_initrd_path
                = none := hio
            rw [copy_files_none hio'] at h
            dsimp only at h
            rw [Bool.and_false, if_neg Bool.false_ne_true] at h
            injection h with hp
            injection hp with hi hst
            rw [← hst]
            exact ⟨rfl, rfl⟩

/-- C6 counterexample: in a manage-mode run on a system where /proc/cmdline
cannot be read, the final unguarded copy_cmdline call in Kernelstub.main
propagates its failure: the run aborts with an error and the configuration
is never saved, contradicting "logged and swallowed by the caller and never
aborts the run". -/
theorem main_copy_cmdline_error_counterexample :
    (main_tail (fun s => s) iEx nEx (fsNoCmdline, []) "o" false true
        false).2 = .error ()
    ∧ Event.configSave ∉ (main_tail (fun s => s) iEx nEx (fsNoCmdline, [])
        "o" false true false).1.2.2 :=
  ⟨by rfl, by decide⟩

/-- C6 (amended): a failure while copying the live kernel command line in the
final, unguarded copy_cmdline call of Kernelstub.main is not swallowed: the
run aborts with the propagated error and the configuration save step is
never reached (no configSave effect is added), even though the earlier
artifacts were processed normally. -/
theorem main_copy_cmdline_failure_aborts
    (resolve : String → String) (o : Opsys) (d : Drive) (n : NVRAM)
    (fs : FS) (tr : List Event) (kopts : String) (sl : Bool)
    (hnc : fs.read "/proc/cmdline" = none)
    (hdk : fs.dirExists (oldKernelDestPath o d) = false)
    (hdi : fs.dirExists (oldInitrdDestPath o d) = false)
    (hsrc : o.old_initrd_path ≠ oldKernelDestPath o d) :
    (main_tail resolve (Installer.mk0 o d) n (fs, tr) kopts sl true
        false).2 = .error ()
    ∧ (main_tail resolve (Installer.mk0 o d) n (fs, tr) kopts sl true
        false).1.2.2.count Event.configSave = tr.count Event.configSave := by
  have hcmd_last : lastC ("/proc/cmdline" : String).data = some 'e' := by
    decide
  have hq1 : ("/proc/cmdline" : String) ≠ oldKernelDestPath o d :=
    str_ne_of_lastC hcmd_last (oldKernelDest_lastC o d) (by decide)
  have hq2 : ("/proc/cmdline" : String) ≠ oldInitrdDestPath o d :=
    str_ne_of_lastC hcmd_last (oldInitrdDest_lastC o d) (by decide)
  have hq3 : ("/proc/cmdline" : String) ≠ entryOldkernPath o d :=
    str_ne_of_lastC hcmd_last (entryOldkern_lastC o d) (by decide)
  simp only [main_tail, Bool.not_true, if_neg Bool.false_ne_true]
  cases hb : backup_old resolve (Installer.mk0 o d) (fs, tr) kopts sl
      false with
  | error e =>
      dsimp only
      have hnc' : ((fs, tr) : St).1.read "/proc/cmdline" = none := hnc
      simp only [copy_cmdline]
      rw [copy_files_none hnc']
      exact ⟨rfl, rfl⟩
  | ok ip =>
      obtain ⟨i2, st2⟩ := ip
      have hpre := backup_old_preserves resolve o d fs tr kopts sl hdk hdi
        hsrc hq1 hq2 hq3 hb
      dsimp only
      have hnc2 : st2.1.read "/proc/cmdline" = none := by
        rw [hpre.1]
        exact hnc
      simp only [copy_cmdline]
      rw [copy_files_none hnc2]
      exact ⟨rfl, hpre.2⟩

theorem main_copy_cmdline_failure_aborts_witness :
    (main_tail (fun s => s) (Installer.mk0 oEx dEx) nEx (fsNoCmdline, []) "o"
        true true false).2 = .error ()
    ∧ (main_tail (fun s => s) (Installer.mk0 oEx dEx) nEx (fsNoCmdline, [])
        "o" true true false).1.2.2.count Event.configSave
      = ([] : List Event).count Event.configSave :=
  main_copy_cmdline_failure_aborts (fun s => s) oEx dEx nEx fsNoCmdline []
    "o" true (by decide) (by decide) (by decide) (by decide)

end Kernelstub
